import Mathlib

/-!
# Manifest factory of the cluster DNS operator

A shallow embedding of `pkg/manifests/manifests.go` and a verification of the
rendering rules of its `Factory`.

Conventions of the embedding:

* a Go `string` is a Lean `String`; a Go slice is a `List` (a nil slice is the
  empty list); a Go pointer that may be nil is an `Option`;
* a Go `map[string]string` is an optional association list (`none` is the nil
  map), read by first match;
* a Go call returning `(*T, error)` is an `Outcome T`: the object, the error,
  or a run-time panic of the Go program;
* the embedded asset table and the YAML codec are outside the package, so a
  factory method takes them as an `Externals` value: the document stored under
  each asset name and what the decoder returns for a document.
-/

namespace manifests

/-! ## Results of a Go call -/

/-- Result of a Go function of type `(*T, error)`: `ok` is `return obj, nil`,
`error` is `return nil, err`, and `panic` is a run-time panic (nil pointer
dereference, assignment to an entry of a nil map). -/
inductive Outcome (α : Type) where
  | ok (obj : α)
  | error (msg : String)
  | panic (msg : String)
  deriving DecidableEq, Repr

/-- The object a call returned, if it returned one. -/
def Outcome.obj? {α : Type} : Outcome α → Option α
  | .ok o => some o
  | _ => none

/-- The error a call returned, if it returned one. -/
def Outcome.err? {α : Type} : Outcome α → Option String
  | .error e => some e
  | _ => none

/-- The call returned normally (it did not panic). -/
def Outcome.returns {α : Type} : Outcome α → Bool
  | .panic _ => false
  | _ => true

deriving instance DecidableEq for Except

/-- Message of the Go run time for a nil pointer dereference. -/
def nilDeref : String := "runtime error: invalid memory address or nil pointer dereference"

/-- Message of the Go run time for a write into a nil map. -/
def nilMapWrite : String := "assignment to entry in nil map"

/-! ## Go maps -/

/-- Entries of a non-nil `map[string]string`. -/
abbrev Entries := List (String × String)

/-- A Go `map[string]string`; `none` is the nil map. -/
abbrev GoMap := Option Entries

/-- Assignment `m[k] = v` on the entries of a non-nil map: the value of an
existing key is overwritten in place, a new key is added. -/
def Entries.set : Entries → String → String → Entries
  | [], k, v => [(k, v)]
  | (k', v') :: rest, k, v =>
    if k' = k then (k, v) :: rest else (k', v') :: Entries.set rest k v

/-- The two-valued read `v, ok := m[k]`; a nil map has no key. -/
def GoMap.lookup (m : GoMap) (k : String) : Option String :=
  match m with
  | none => none
  | some es => es.lookup k

/-- The read `m[k]`: the zero value `""` for a missing key or a nil map. -/
def GoMap.get (m : GoMap) (k : String) : String :=
  (m.lookup k).getD ""

/-- The guard `if m == nil { m = map[string]string{} }`. -/
def GoMap.orEmpty (m : GoMap) : Entries :=
  match m with
  | none => []
  | some es => es

/-! ## Resource types

The fields the factory reads or writes, and some it must leave alone. -/

/-- Configuration of the operator (`operator.Config`): the two image references. -/
structure Config where
  CoreDNSImage : String
  OpenshiftCLIImage : String
  deriving DecidableEq, Repr

/-- Network part of an install config (`util.NetworkConfig`). -/
structure NetworkConfig where
  ServiceCIDR : String
  deriving DecidableEq, Repr

/-- Install config (`util.InstallConfig`). -/
structure InstallConfig where
  Networking : NetworkConfig
  deriving DecidableEq, Repr

/-- Object metadata (`metav1.ObjectMeta`). -/
structure ObjectMeta where
  Name : String
  Namespace : String
  Labels : GoMap
  deriving DecidableEq, Repr

/-- Spec of a ClusterDNS (`dnsv1alpha1.ClusterDNSSpec`); both fields are `*string`. -/
structure ClusterDNSSpec where
  ClusterIP : Option String
  ClusterDomain : Option String
  deriving DecidableEq, Repr

/-- ClusterDNS resource (`dnsv1alpha1.ClusterDNS`). -/
structure ClusterDNS where
  ObjectMeta : ObjectMeta
  Spec : ClusterDNSSpec
  deriving DecidableEq, Repr

/-- ConfigMap (`corev1.ConfigMap`). -/
structure ConfigMap where
  ObjectMeta : ObjectMeta
  Data : GoMap
  deriving DecidableEq, Repr

/-- Environment variable of a container (`corev1.EnvVar`). -/
structure EnvVar where
  Name : String
  Value : String
  deriving DecidableEq, Repr

/-- Container of a pod (`corev1.Container`). -/
structure Container where
  Name : String
  Image : String
  Command : List String
  Args : List String
  Env : List EnvVar
  deriving DecidableEq, Repr

/-- Config-map source of a volume (`corev1.ConfigMapVolumeSource`); `Name` is
the name of the embedded `LocalObjectReference`. -/
structure ConfigMapVolumeSource where
  Name : String
  Items : List (String × String)
  deriving DecidableEq, Repr

/-- Volume of a pod (`corev1.Volume`); the sources are pointers of the embedded
`VolumeSource`, of which a decoded volume has at most one set. -/
structure Volume where
  Name : String
  ConfigMap : Option ConfigMapVolumeSource
  HostPath : Option String
  Secret : Option String
  deriving DecidableEq, Repr

/-- Pod spec (`corev1.PodSpec`). -/
structure PodSpec where
  Volumes : List Volume
  Containers : List Container
  deriving DecidableEq, Repr

/-- Pod template (`corev1.PodTemplateSpec`). -/
structure PodTemplateSpec where
  ObjectMeta : ObjectMeta
  Spec : PodSpec
  deriving DecidableEq, Repr

/-- Label selector (`metav1.LabelSelector`). -/
structure LabelSelector where
  MatchLabels : GoMap
  deriving DecidableEq, Repr

/-- DaemonSet spec (`appsv1.DaemonSetSpec`); `Selector` is a pointer. -/
structure DaemonSetSpec where
  Selector : Option LabelSelector
  Template : PodTemplateSpec
  deriving DecidableEq, Repr

/-- DaemonSet (`appsv1.DaemonSet`). -/
structure DaemonSet where
  ObjectMeta : ObjectMeta
  Spec : DaemonSetSpec
  deriving DecidableEq, Repr

/-- Service spec (`corev1.ServiceSpec`). -/
structure ServiceSpec where
  Selector : GoMap
  ClusterIP : String
  deriving DecidableEq, Repr

/-- Service (`corev1.Service`). -/
structure Service where
  ObjectMeta : ObjectMeta
  Spec : ServiceSpec
  deriving DecidableEq, Repr

/-! ## String functions of the Go library

`strings.Index`, `strings.Count` and `strings.Replace` belong to the Go
standard library. They are embedded on character lists after their documented
behaviour and the generic loops of the library (the single-byte and assembly
fast paths, which compute the same values, are left out). A Go string is a
byte sequence; the search text `cluster.local` is ASCII, for which matching
bytes of valid UTF-8 and matching characters agree. -/

namespace strings

/-- Modelled from the spec: `strings.Index(s, substr)` of the Go library, which
is not part of the package. The index of the first instance of `substr`
in `s`; `none` stands for the result `-1`. -/
def Index : List Char → List Char → Option Nat
  | [], substr => if substr = [] then some 0 else none
  | c :: cs, substr =>
    if substr.isPrefixOf (c :: cs) then some 0 else (Index cs substr).map (· + 1)

/-- Modelled from the spec: the loop of `strings.Count` of the Go library for a
non-empty `substr`,
`for { i := Index(s, substr); if i == -1 { return n }; n++; s = s[i+len(substr):] }`.
The first argument bounds the number of iterations. -/
def countLoop (substr : List Char) : Nat → List Char → Nat → Nat
  | 0, _, n => n
  | fuel + 1, s, n =>
    match Index s substr with
    | none => n
    | some i => countLoop substr fuel (s.drop (i + substr.length)) (n + 1)

/-- Modelled from the spec: `strings.Count(s, substr)` of the Go library. The number of
non-overlapping instances of `substr` in `s`, and one more than the number of characters
for an empty `substr`. Every iteration of the loop removes at least one character, so
`s.length + 1` iterations are enough. -/
def Count (s substr : List Char) : Nat :=
  if substr.length = 0 then s.length + 1 else countLoop substr (s.length + 1) s 0

/-- Modelled from the spec: the replacement loop of `strings.Replace` of the Go
library,
`for i := 0; i < n; i++ { j := start; ...; w += copy(t[w:], s[start:j]);
w += copy(t[w:], new); start = j + len(old) }; w += copy(t[w:], s[start:])`.
Arguments: the iterations left, the loop index `i`, `start` and the buffer
written so far. `none` is the slice-bounds panic that `s[start:j]` would raise
if `Index` returned `-1`. -/
def replaceLoop (s old new : List Char) : Nat → Nat → Nat → List Char → Option (List Char)
  | 0, _, start, t => some (t ++ s.drop start)
  | k + 1, i, start, t =>
    let found : Option Nat :=
      if old.length = 0 then
        some (if i > 0 then start + (if start < s.length then 1 else 0) else start)
      else (Index (s.drop start) old).map (start + ·)
    match found with
    | none => none
    | some j =>
      replaceLoop s old new k (i + 1) (j + old.length)
        (t ++ (s.drop start).take (j - start) ++ new)

/-- Modelled from the spec: `strings.Replace(s, old, new, n)` of the Go library,
on character lists: no replacement when `old = new` or `n = 0` or `old` does
not occur, else the loop over the first `n` instances (all when `n < 0`). -/
def replaceChars (s old new : List Char) (n : Int) : Option (List Char) :=
  if old = new ∨ n = 0 then some s
  else
    let m := Count s old
    if m = 0 then some s
    else
      let n' : Nat := if n < 0 ∨ (m : Int) < n then m else n.toNat
      replaceLoop s old new n' 0 0 []

/-- Modelled from the spec: `strings.Replace(s, old, new, n)` of the Go library,
which is not part of the package: a copy of `s` with the first `n`
non-overlapping instances of `old` replaced by `new`, all of them when `n < 0`. -/
def Replace (s old new : String) (n : Int) : Option String :=
  (replaceChars s.data old.data new.data n).map String.mk

end strings

/-! ## The specification of a replacement of all occurrences

Written after the words of the specification, independently of the library's
algorithm: the text is cut at the left-to-right, non-overlapping occurrences
of the separator, and the pieces are joined by the new text. -/

/-- Pieces of a text between the left-to-right, non-overlapping occurrences of
`sep`. The text is read once from the left: `skip` counts the characters of an
occurrence still to be passed over and `cur` is the piece being collected. -/
def splitScan (sep : List Char) : List Char → Nat → List Char → List (List Char)
  | [], _, cur => [cur]
  | _ :: cs, skip + 1, cur => splitScan sep cs skip cur
  | c :: cs, 0, cur =>
    if sep.isPrefixOf (c :: cs) then cur :: splitScan sep cs (sep.length - 1) []
    else splitScan sep cs 0 (cur ++ [c])

/-- The pieces of `t` split on `sep`. -/
def piecesOf (t sep : String) : List (List Char) :=
  splitScan sep.data t.data 0 []

/-- The pieces of `t` split on `sep`, joined by `new`. -/
def splitJoin (t sep new : String) : String :=
  String.mk (List.intercalate new.data (piecesOf t sep))

/-! ## Address ranges

`net.ParseCIDR`, `net.IP.String` (Go standard library) and `cidr.Host`
(go-cidr) are not part of the package. They are modelled from section 4.2 of
the specification, on the value of an address: an address is its byte length
(4 or 16) and the number its big-endian bytes denote. The accepted texts, the
printed form and the place where `cidr.Host` inserts the host number follow
the libraries. -/

namespace net

/-- Modelled from the spec: `net.IP`, an address of `len` bytes (4 or 16) whose
big-endian bytes denote `val`. -/
structure IP where
  len : Nat
  val : Nat
  deriving DecidableEq, Repr

/-- Modelled from the spec: `net.IPNet`, an address range: the network number
`IP` and a mask of `ones` leading one bits. -/
structure IPNet where
  IP : IP
  ones : Nat
  deriving DecidableEq, Repr

/-- Modelled from the spec: number of bits of an address. -/
def IP.bits (ip : IP) : Nat := 8 * ip.len

/-- Modelled from the spec: number of host bits of a range (`addrLen - parentLen` of
`mask.Size()`). -/
def IPNet.hostLen (n : IPNet) : Nat := n.IP.bits - n.ones

/-- Modelled from the spec: number of addresses of a range. -/
def IPNet.count (n : IPNet) : Nat := 2 ^ n.hostLen

/-- Modelled from the spec: `ip.Mask(CIDRMask(ones, 8*len))`, the address with
its host bits cleared. -/
def IP.Mask (ip : IP) (ones : Nat) : IP :=
  { ip with val := ip.val / 2 ^ (ip.bits - ones) * 2 ^ (ip.bits - ones) }

/-- Modelled from the spec: `n.Contains(ip)`: `ip` is an address of the family
of the range whose network bits are those of the range. -/
def IPNet.Contains (n : IPNet) (ip : net.IP) : Bool :=
  ip.len = n.IP.len && ip.val < 2 ^ ip.bits && (ip.Mask n.ones).val = n.IP.val

/-- Modelled from the spec: value of a big-endian byte sequence (`big.Int.SetBytes`). -/
def bytesVal (bs : List Nat) : Nat := bs.foldl (fun acc b => acc * 256 + b) 0

/-- Modelled from the spec: bound `big` of the library's number scanners. -/
def big : Nat := 0xFFFFFF

/-- Modelled from the spec: loop of `dtoi`: decimal digits at the start of `s`; `none`
when the number reaches `big`. Returns the number, the count of digits and the rest. -/
def dtoiLoop : List Char → Nat → Nat → Option (Nat × Nat × List Char)
  | [], n, i => some (n, i, [])
  | c :: cs, n, i =>
    if '0' ≤ c ∧ c ≤ '9' then
      let n' := n * 10 + (c.toNat - '0'.toNat)
      if n' ≥ big then none else dtoiLoop cs n' (i + 1)
    else some (n, i, c :: cs)

/-- Modelled from the spec: `dtoi(s)` of package `net`: the decimal number at
the start of `s`, which has at least one digit. -/
def dtoi (s : List Char) : Option (Nat × Nat × List Char) :=
  match dtoiLoop s 0 0 with
  | none => none
  | some (n, i, rest) => if i = 0 then none else some (n, i, rest)

/-- Modelled from the spec: value of a hexadecimal digit, if `c` is one. -/
def hexVal (c : Char) : Option Nat :=
  if '0' ≤ c ∧ c ≤ '9' then some (c.toNat - '0'.toNat)
  else if 'a' ≤ c ∧ c ≤ 'f' then some (c.toNat - 'a'.toNat + 10)
  else if 'A' ≤ c ∧ c ≤ 'F' then some (c.toNat - 'A'.toNat + 10)
  else none

/-- Modelled from the spec: loop of `xtoi`: hexadecimal digits at the start of `s`. -/
def xtoiLoop : List Char → Nat → Nat → Option (Nat × Nat × List Char)
  | [], n, i => some (n, i, [])
  | c :: cs, n, i =>
    match hexVal c with
    | none => some (n, i, c :: cs)
    | some d =>
      let n' := n * 16 + d
      if n' ≥ big then none else xtoiLoop cs n' (i + 1)

/-- Modelled from the spec: `xtoi(s)` of package `net`: the hexadecimal number
at the start of `s`, which has at least one digit. -/
def xtoi (s : List Char) : Option (Nat × Nat × List Char) :=
  match xtoiLoop s 0 0 with
  | none => none
  | some (n, i, rest) => if i = 0 then none else some (n, i, rest)

/-- Modelled from the spec: loop of `parseIPv4` over the octets still to read; `first` is `i == 0`.
Returns the octets and the rest of the text. -/
def parseOctets : Nat → Bool → List Char → Option (List Nat × List Char)
  | 0, _, s => some ([], s)
  | k + 1, first, s =>
    if s = [] then none
    else
      let s1 : Option (List Char) :=
        if first then some s
        else match s with
          | '.' :: r => some r
          | _ => none
      match s1 with
      | none => none
      | some s1 =>
        match dtoi s1 with
        | none => none
        | some (n, _, rest) =>
          if n > 0xFF then none
          else
            match parseOctets k false rest with
            | none => none
            | some (os, r) => some (n % 256 :: os, r)

/-- Modelled from the spec: `parseIPv4(s)` of package `net`: the four octets of
a dotted decimal address `d.d.d.d`. -/
def parseIPv4 (s : List Char) : Option (List Nat) :=
  match parseOctets 4 true s with
  | some (os, []) => some os
  | _ => none

/-- Modelled from the spec: loop of `parseIPv6`, reading hexadecimal groups followed by a colon. The
state is the text left, the position of the ellipsis and the bytes written so
far (the index `i` of the library is their number). -/
def parseIPv6Loop : Nat → List Char → Option Nat → List Nat →
    Option (List Char × Option Nat × List Nat)
  | 0, _, _, _ => none
  | fuel + 1, s, ellipsis, ip =>
    if ip.length ≥ 16 then some (s, ellipsis, ip)
    else
      match xtoi s with
      | none => none
      | some (n, _, rest) =>
        if n > 0xFFFF then none
        else if rest.head? = some '.' then
          if ellipsis.isNone ∧ ip.length ≠ 12 then none
          else if ip.length + 4 > 16 then none
          else
            match parseIPv4 s with
            | none => none
            | some ip4 => some ([], ellipsis, ip ++ ip4)
        else
          let ip' := ip ++ [n / 256 % 256, n % 256]
          match rest with
          | [] => some ([], ellipsis, ip')
          | c :: s2 =>
            if c ≠ ':' ∨ s2 = [] then none
            else
              match s2 with
              | ':' :: s3 =>
                if ellipsis.isSome then none
                else if s3 = [] then some ([], some ip'.length, ip')
                else parseIPv6Loop fuel s3 (some ip'.length) ip'
              | _ => parseIPv6Loop fuel s2 ellipsis ip'

/-- Modelled from the spec: end of `parseIPv6`: the whole text must be used; an ellipsis is expanded
to the missing zero bytes and must stand for at least one group. -/
def finishIPv6 : List Char × Option Nat × List Nat → Option (List Nat)
  | (s, ellipsis, ip) =>
    if s ≠ [] then none
    else if ip.length < 16 then
      match ellipsis with
      | none => none
      | some e => some (ip.take e ++ List.replicate (16 - ip.length) 0 ++ ip.drop e)
    else if ellipsis.isSome then none
    else some ip

/-- Modelled from the spec: `parseIPv6(s)` of package `net` without a zone: the
sixteen bytes of an address in colon notation. -/
def parseIPv6 (s : List Char) : Option (List Nat) :=
  match s with
  | [':', ':'] => some (List.replicate 16 0)
  | ':' :: ':' :: s' => (parseIPv6Loop 9 s' (some 0) []).bind finishIPv6
  | _ => (parseIPv6Loop 9 s none []).bind finishIPv6

/-- Modelled from the spec: text of a `net.ParseError` for a CIDR address. -/
def parseError (s : String) : String := "invalid CIDR address: " ++ s

/-- Modelled from the spec: `net.ParseCIDR(s)`: the text is `address/length`
with a dotted decimal or colon notation address and a decimal prefix length
within the width of the address. Returns the address and the range it lies
in, or the error text. -/
def ParseCIDR (s : String) : Except String (IP × IPNet) :=
  let addr := s.data.takeWhile (· ≠ '/')
  match s.data.dropWhile (· ≠ '/') with
  | [] => .error (parseError s)
  | _ :: mask =>
    let parsed : Option IP :=
      match parseIPv4 addr with
      | some os => some { len := 4, val := bytesVal os }
      | none => (parseIPv6 addr).map (fun bs => { len := 16, val := bytesVal bs })
    match parsed, dtoi mask with
    | some ip, some (n, i, _) =>
      if i ≠ mask.length ∨ n > 8 * ip.len then .error (parseError s)
      else .ok (ip, { IP := ip.Mask n, ones := n })
    | _, _ => .error (parseError s)

/-- Modelled from the spec: loop of `uitoa`: `for val >= 10 { q := val / 10; buf[i] =
byte('0' + val - q*10); i--; val = q }; buf[i] = byte('0' + val)`, the buffer holding
twenty digits. -/
def uitoaLoop : Nat → Nat → List Char → List Char
  | 0, _, acc => acc
  | fuel + 1, val, acc =>
    if val ≥ 10 then uitoaLoop fuel (val / 10) (Char.ofNat (48 + val % 10) :: acc)
    else Char.ofNat (48 + val) :: acc

/-- Modelled from the spec: `uitoa(val)`, the decimal form of a number. -/
def uitoa (val : Nat) : List Char :=
  if val = 0 then ['0'] else uitoaLoop 20 val []

/-- Modelled from the spec: hexadecimal digit of the low four bits of `v` (`hexDigit[v&0xf]`). -/
def hexDigit (v : Nat) : Char := "0123456789abcdef".data.getD (v % 16) '0'

/-- Modelled from the spec: `appendHex`, the hexadecimal form of a group
without leading zeros. -/
def appendHex (i : Nat) : List Char :=
  if i = 0 then ['0']
  else [7, 6, 5, 4, 3, 2, 1, 0].filterMap
    (fun j => if i / 16 ^ j > 0 then some (hexDigit (i / 16 ^ j)) else none)

/-- Modelled from the spec: dotted decimal form of the low 32 bits of `v`. -/
def dotted (v : Nat) : List Char :=
  uitoa (v / 2 ^ 24 % 256) ++ '.' :: uitoa (v / 2 ^ 16 % 256) ++
    '.' :: uitoa (v / 2 ^ 8 % 256) ++ '.' :: uitoa (v % 256)

/-- Modelled from the spec: the eight 16-bit groups of a 16-byte address. -/
def groups (v : Nat) : List Nat :=
  [7, 6, 5, 4, 3, 2, 1, 0].map (fun k => v / 2 ^ (16 * k) % 65536)

/-- Modelled from the spec: number of zero groups at the start of a list of groups. -/
def zeroRun : List Nat → Nat
  | 0 :: gs => zeroRun gs + 1
  | _ => 0

/-- Modelled from the spec: search of `IP.String` for the longest run of zero groups,
the first one of that length: `i` is the current group, `best` the run `(e0, e1)` found
so far (`(0, 0)` standing for none). -/
def longestZeroRun (g : List Nat) : Nat → Nat → Nat × Nat → Nat × Nat
  | 0, _, best => best
  | fuel + 1, i, best =>
    if i ≥ 8 then best
    else
      let j := i + zeroRun (g.drop i)
      if j > i ∧ j - i > best.2 - best.1 then longestZeroRun g fuel (j + 1) (i, j)
      else longestZeroRun g fuel (i + 1) best

/-- Modelled from the spec: printing loop of `IP.String` for a 16-byte address: the
groups from `i` on, with `::` in place of the run `(e0, e1)` when there is one. -/
def printGroups (g : List Nat) (run : Option (Nat × Nat)) : Nat → Nat → List Char
  | 0, _ => []
  | fuel + 1, i =>
    if i ≥ 8 then []
    else
      match run with
      | some (e0, e1) =>
        if i = e0 then
          ':' :: ':' ::
            (if e1 ≥ 8 then [] else appendHex (g.getD e1 0) ++ printGroups g run fuel (e1 + 1))
        else (if i > 0 then [':'] else []) ++ appendHex (g.getD i 0) ++ printGroups g run fuel (i + 1)
      | none =>
        (if i > 0 then [':'] else []) ++ appendHex (g.getD i 0) ++ printGroups g run fuel (i + 1)

/-- Modelled from the spec: `ip.String()`, the canonical text of an address:
dotted decimal for a 4-byte address and for a 16-byte address that embeds one
(`::ffff:a.b.c.d`), else colon notation with the longest run of two or more
zero groups written `::`. -/
def IP.String (ip : IP) : String :=
  if ip.len = 4 then String.mk (dotted ip.val)
  else if ip.len = 16 then
    if ip.val / 2 ^ 32 = 0xFFFF then String.mk (dotted ip.val)
    else
      let g := groups ip.val
      let best := longestZeroRun g 9 0 (0, 0)
      let run := if best.2 - best.1 ≤ 1 then none else some best
      String.mk (printGroups g run 9 0)
  else "?"

/-- Modelled from the spec: `ip.To4()`, the 4-byte form of an address: a
4-byte address itself, the last four bytes of a 16-byte address whose first
ten bytes are zero and whose next two are `ff` (`::ffff:a.b.c.d`), and nil
(`none`) for any other address. -/
def IP.To4 (ip : IP) : Option IP :=
  if ip.len = 4 then some ip
  else if ip.len = 16 ∧ ip.val / 2 ^ 32 = 0xFFFF then some { len := 4, val := ip.val % 2 ^ 32 }
  else none

/-- Modelled from the spec: `n.String()`, the range as `address/length`. For a
16-byte network number that `To4` accepts the library prints the 4-byte form
and the length of the last four bytes of the mask. -/
def IPNet.String (n : IPNet) : String :=
  if n.IP.len = 16 ∧ n.IP.To4.isSome then
    n.IP.String ++ "/" ++ String.mk (uitoa (n.ones - 96))
  else n.IP.String ++ "/" ++ String.mk (uitoa n.ones)

end net

namespace cidr

/-- Modelled from the spec: `insertNumIntoIP(ip, num, prefixLen)` of go-cidr:
`ipInt, totalBits := ipToInt(ip)`, the number is shifted left by
`totalBits - prefixLen` bits and or-ed into the address, where `totalBits` is
the width of the bytes of `ip` (32 or 128). -/
def insertNumIntoIP (ip : net.IP) (num prefixLen : Nat) : net.IP :=
  { ip with val := ip.val ||| (num <<< (ip.bits - prefixLen)) }

/-- Modelled from the spec: `cidr.Host(base, num)` of go-cidr for a host number
`num ≥ 0`. It fails, rather than wrap or truncate, when `num` exceeds the
largest host number of the range. Else the library takes
`bitlength = 32` when `base.IP.To4() != nil` and `128` otherwise and returns
`insertNumIntoIP(ip, num, bitlength)`: the address at offset `num` from the
network number for a 4-byte range and for a 16-byte range that `To4` rejects,
and the network number with `num` placed 96 bits higher for a 16-byte range
that `To4` accepts. -/
def Host (base : net.IPNet) (num : Nat) : Except String net.IP :=
  let maxHostNum := 2 ^ base.hostLen - 1
  if num > maxHostNum then
    .error ("prefix of " ++ String.mk (net.uitoa base.ones) ++
      " does not accommodate a host numbered " ++ String.mk (net.uitoa num))
  else
    let bitlength := if base.IP.To4.isSome then 32 else 128
    .ok (insertNumIntoIP base.IP num bitlength)

end cidr

/-! ## The factory -/

/-- What lies outside the package: the embedded asset table (`MustAsset`, which
yields the document stored under an asset name and is taken to hold every
asset the factory names), the YAML codec (what
`yaml.NewYAMLOrJSONDecoder(manifest, 100).Decode(&obj)` does with a document:
the populated object, or a decode error) and the quoting of the verb `%q` of
`fmt`. -/
structure Externals where
  MustAsset : String → String
  decodeClusterDNS : String → Except String ClusterDNS
  decodeConfigMap : String → Except String ConfigMap
  decodeDaemonSet : String → Except String DaemonSet
  decodeService : String → Except String Service
  Quote : String → String

def ClusterDNSDefaultCR : String := "assets/cluster-dns-cr.yaml"
def DNSNamespace : String := "assets/dns/namespace.yaml"
def DNSServiceAccount : String := "assets/dns/service-account.yaml"
def DNSClusterRole : String := "assets/dns/cluster-role.yaml"
def DNSClusterRoleBinding : String := "assets/dns/cluster-role-binding.yaml"
def DNSConfigMap : String := "assets/dns/configmap.yaml"
def DNSDaemonSet : String := "assets/dns/daemonset.yaml"
def DNSService : String := "assets/dns/service.yaml"

/-- `MustAssetReader(asset)`: a reader over the document of the asset. -/
def MustAssetReader (x : Externals) (asset : String) : String :=
  x.MustAsset asset

/-- Lift of a decoder result to the `(*T, error)` of a `New...` function. -/
def ofDecode {α : Type} : Except String α → Outcome α
  | .error e => .error e
  | .ok o => .ok o

/-- `NewConfigMap(manifest)`. -/
def NewConfigMap (x : Externals) (manifest : String) : Outcome ConfigMap :=
  ofDecode (x.decodeConfigMap manifest)

/-- `NewDaemonSet(manifest)`. -/
def NewDaemonSet (x : Externals) (manifest : String) : Outcome DaemonSet :=
  ofDecode (x.decodeDaemonSet manifest)

/-- `NewService(manifest)`. -/
def NewService (x : Externals) (manifest : String) : Outcome Service :=
  ofDecode (x.decodeService manifest)

/-- `NewClusterDNS(manifest)`. -/
def NewClusterDNS (x : Externals) (manifest : String) : Outcome ClusterDNS :=
  ofDecode (x.decodeClusterDNS manifest)

/-- The factory: `type Factory struct { config operator.Config }`. -/
structure Factory where
  config : Config
  deriving DecidableEq, Repr

/-- `NewFactory(config)`. -/
def NewFactory (config : Config) : Factory := { config := config }

/-- `Factory.ClusterDNSDefaultCR(ic)`; `none` is a nil install config. -/
def Factory.ClusterDNSDefaultCR (_f : Factory) (x : Externals) (ic : Option InstallConfig) :
    Outcome ClusterDNS :=
  match ic with
  | none => .error "missing installconfig"
  | some ic =>
    match NewClusterDNS x (MustAssetReader x manifests.ClusterDNSDefaultCR) with
    | .error e => .error e
    | .panic p => .panic p
    | .ok cr =>
      match net.ParseCIDR ic.Networking.ServiceCIDR with
      | .error err =>
        .error ("invalid serviceCIDR " ++ x.Quote ic.Networking.ServiceCIDR ++ ": " ++ err)
      | .ok (_, serviceCIDR) =>
        match cidr.Host serviceCIDR 10 with
        | .error err => .error ("invalid serviceCIDR " ++ serviceCIDR.String ++ ": " ++ err)
        | .ok dnsClusterIP =>
          .ok { cr with Spec := { cr.Spec with ClusterIP := some dnsClusterIP.String } }

/-- `Factory.DNSConfigMap(dns)`. The write `cm.Data["Corefile"] = ...` panics
on a nil `Data` map, after the right-hand side has been evaluated. -/
def Factory.DNSConfigMap (_f : Factory) (x : Externals) (dns : ClusterDNS) : Outcome ConfigMap :=
  match NewConfigMap x (MustAssetReader x manifests.DNSConfigMap) with
  | .error e => .error e
  | .panic p => .panic p
  | .ok cm =>
    let cm := { cm with ObjectMeta := { cm.ObjectMeta with Name := "dns-" ++ dns.ObjectMeta.Name } }
    match dns.Spec.ClusterDomain with
    | none => .ok cm
    | some domain =>
      match strings.Replace (cm.Data.get "Corefile") "cluster.local" domain (-1) with
      | none => .panic "runtime error: slice bounds out of range"
      | some text =>
        match cm.Data with
        | none => .panic nilMapWrite
        | some es => .ok { cm with Data := some (es.set "Corefile" text) }

/-- The loop over `ds.Spec.Template.Spec.Volumes` of `DNSDaemonSet`: the first
volume named `config-volume` gets `ConfigMap.Name = name` and the loop breaks.
Returns the volumes and `coreFileVolumeFound`; `none` is the nil pointer
dereference of a `config-volume` without a config-map source. -/
def repointConfigVolume (name : String) : List Volume → Option (List Volume × Bool)
  | [] => some ([], false)
  | v :: vs =>
    if v.Name = "config-volume" then
      match v.ConfigMap with
      | none => none
      | some src => some ({ v with ConfigMap := some { src with Name := name } } :: vs, true)
    else
      match repointConfigVolume name vs with
      | none => none
      | some (vs', found) => some (v :: vs', found)

/-- Body of the loop over `ds.Spec.Template.Spec.Containers` of `DNSDaemonSet`
for one container `c` at index `i`: what `Containers[i]` is afterwards. -/
def patchContainer (f : Factory) (dns : ClusterDNS) (c : Container) : Container :=
  if c.Name = "dns" then
    { c with Image := f.config.CoreDNSImage }
  else if c.Name = "dns-node-resolver" then
    let c' := { c with Image := f.config.OpenshiftCLIImage }
    match dns.Spec.ClusterIP, dns.Spec.ClusterDomain with
    | some ip, some domain =>
      { c' with Env := c'.Env ++ [{ Name := "NAMESERVER", Value := ip },
                                  { Name := "CLUSTER_DOMAIN", Value := domain }] }
    | _, _ => c'
  else c

/-- `Factory.DNSDaemonSet(dns)`. -/
def Factory.DNSDaemonSet (f : Factory) (x : Externals) (dns : ClusterDNS) : Outcome DaemonSet :=
  match NewDaemonSet x (MustAssetReader x manifests.DNSDaemonSet) with
  | .error e => .error e
  | .panic p => .panic p
  | .ok ds =>
    let name := "dns-" ++ dns.ObjectMeta.Name
    let tmplLabels := (ds.Spec.Template.ObjectMeta.Labels.orEmpty).set "dns" name
    match ds.Spec.Selector with
    | none => .panic nilDeref
    | some sel =>
      let matchLabels := (sel.MatchLabels.orEmpty).set "dns" name
      match repointConfigVolume name ds.Spec.Template.Spec.Volumes with
      | none => .panic nilDeref
      | some (_, false) => .error "volume 'config-volume' not found"
      | some (volumes, true) =>
        .ok { ObjectMeta := { ds.ObjectMeta with Name := name }
              Spec :=
                { Selector := some { sel with MatchLabels := some matchLabels }
                  Template :=
                    { ObjectMeta := { ds.Spec.Template.ObjectMeta with Labels := some tmplLabels }
                      Spec :=
                        { ds.Spec.Template.Spec with
                          Volumes := volumes
                          Containers := ds.Spec.Template.Spec.Containers.map (patchContainer f dns) } } } }

/-- `Factory.DNSService(dns)`. -/
def Factory.DNSService (_f : Factory) (x : Externals) (dns : ClusterDNS) : Outcome Service :=
  match NewService x (MustAssetReader x manifests.DNSService) with
  | .error e => .error e
  | .panic p => .panic p
  | .ok s =>
    let name := "dns-" ++ dns.ObjectMeta.Name
    let labels := (s.ObjectMeta.Labels.orEmpty).set "dns" name
    let selector := (s.Spec.Selector.orEmpty).set "dns" name
    let clusterIP := match dns.Spec.ClusterIP with
      | some ip => ip
      | none => s.Spec.ClusterIP
    .ok { ObjectMeta := { s.ObjectMeta with Name := name, Labels := some labels }
          Spec := { s.Spec with Selector := some selector, ClusterIP := clusterIP } }

/-! ## Shapes of the rendered objects -/

/-- The DaemonSet that `DNSDaemonSet` returns for a template `t` with selector
`sel` whose volumes were repointed to `vols`. -/
def renderDaemonSet (f : Factory) (dns : ClusterDNS) (t : DaemonSet) (sel : LabelSelector)
    (vols : List Volume) : DaemonSet :=
  let name := "dns-" ++ dns.ObjectMeta.Name
  { ObjectMeta := { t.ObjectMeta with Name := name }
    Spec :=
      { Selector := some { sel with MatchLabels := some ((sel.MatchLabels.orEmpty).set "dns" name) }
        Template :=
          { ObjectMeta := { t.Spec.Template.ObjectMeta with
              Labels := some ((t.Spec.Template.ObjectMeta.Labels.orEmpty).set "dns" name) }
            Spec :=
              { t.Spec.Template.Spec with
                Volumes := vols
                Containers := t.Spec.Template.Spec.Containers.map (patchContainer f dns) } } } }


/-- The `matchLabels` of the selector of a DaemonSet (nil without a selector). -/
def DaemonSet.matchLabels (ds : DaemonSet) : GoMap :=
  match ds.Spec.Selector with
  | none => none
  | some sel => sel.MatchLabels


/-! ## A sample set of manifests

Used to evaluate the factory on concrete inputs. -/

def exampleConfig : Config :=
  { CoreDNSImage := "openshift/origin-coredns:v4.0"
    OpenshiftCLIImage := "openshift/origin-cli:v4.0" }

def exampleFactory : Factory := NewFactory exampleConfig

def exampleClusterDNS : ClusterDNS :=
  { ObjectMeta := { Name := "default", Namespace := "", Labels := none }
    Spec := { ClusterIP := some "10.0.0.10", ClusterDomain := some "example.local" } }

def exampleDefaultCR : ClusterDNS :=
  { ObjectMeta := { Name := "default", Namespace := "", Labels := none }
    Spec := { ClusterIP := none, ClusterDomain := some "cluster.local" } }

def exampleConfigMapTemplate : ConfigMap :=
  { ObjectMeta := { Name := "", Namespace := "openshift-cluster-dns", Labels := none }
    Data := some [("Corefile",
      ".:5353 kubernetes cluster.local in-addr.arpa ip6.arpa; rewrite cluster.local; reload")] }

def exampleDaemonSetTemplate : DaemonSet :=
  { ObjectMeta := { Name := "", Namespace := "openshift-cluster-dns", Labels := none }
    Spec :=
      { Selector := some { MatchLabels := none }
        Template :=
          { ObjectMeta := { Name := "", Namespace := "", Labels := some [("app", "dns"), ("dns", "stale")] }
            Spec :=
              { Volumes :=
                  [ { Name := "hosts", ConfigMap := none, HostPath := some "/etc/hosts", Secret := none },
                    { Name := "config-volume"
                      ConfigMap := some { Name := "dns", Items := [("Corefile", "Corefile")] }
                      HostPath := none, Secret := none } ]
                Containers :=
                  [ { Name := "dns", Image := "openshift/origin-coredns:latest"
                      Command := ["coredns"], Args := ["-conf", "/etc/coredns/Corefile"], Env := [] },
                    { Name := "dns-node-resolver", Image := "openshift/origin-cli:latest"
                      Command := ["/bin/bash", "-c"], Args := []
                      Env := [{ Name := "SERVICES", Value := "image-registry.openshift-image-registry.svc" }] },
                    { Name := "metrics", Image := "prom/exporter:1.0"
                      Command := [], Args := [], Env := [] } ] } } } }

def exampleServiceTemplate : Service :=
  { ObjectMeta := { Name := "", Namespace := "openshift-cluster-dns", Labels := none }
    Spec := { Selector := some [("dns", "stale")], ClusterIP := "" } }

/-- Sample externals: the document of an asset is the asset's name, and each
decoder knows the document of its kind. -/
def exampleExternals : Externals :=
  { MustAsset := fun asset => asset
    decodeClusterDNS := fun doc =>
      if doc = ClusterDNSDefaultCR then .ok exampleDefaultCR else .error "unexpected document"
    decodeConfigMap := fun doc =>
      if doc = DNSConfigMap then .ok exampleConfigMapTemplate else .error "unexpected document"
    decodeDaemonSet := fun doc =>
      if doc = DNSDaemonSet then .ok exampleDaemonSetTemplate else .error "unexpected document"
    decodeService := fun doc =>
      if doc = DNSService then .ok exampleServiceTemplate else .error "unexpected document"
    Quote := fun s => "\"" ++ s ++ "\"" }

/-- The sample externals with another DaemonSet template. -/
def exampleExternalsWithDaemonSet (t : DaemonSet) : Externals :=
  { exampleExternals with decodeDaemonSet := fun _ => .ok t }

/-- The sample externals with another ConfigMap template. -/
def exampleExternalsWithConfigMap (t : ConfigMap) : Externals :=
  { exampleExternals with decodeConfigMap := fun _ => .ok t }

/-- The object of an outcome, or `dflt` when there is none. -/
def Outcome.getD {α : Type} (o : Outcome α) (dflt : α) : α :=
  match o with
  | .ok obj => obj
  | _ => dflt

def exampleRenderedConfigMap : ConfigMap :=
  (exampleFactory.DNSConfigMap exampleExternals exampleClusterDNS).getD exampleConfigMapTemplate

def exampleRenderedDaemonSet : DaemonSet :=
  (exampleFactory.DNSDaemonSet exampleExternals exampleClusterDNS).getD exampleDaemonSetTemplate

def exampleRenderedService : Service :=
  (exampleFactory.DNSService exampleExternals exampleClusterDNS).getD exampleServiceTemplate

/-- A DaemonSet template without a selector and without volumes. -/
def exampleDaemonSetNoSelector : DaemonSet :=
  { exampleDaemonSetTemplate with
    Spec := { Selector := none
              Template := { exampleDaemonSetTemplate.Spec.Template with
                Spec := { exampleDaemonSetTemplate.Spec.Template.Spec with Volumes := [] } } } }

/-- A DaemonSet template without a volume named `config-volume`. -/
def exampleDaemonSetNoVolume : DaemonSet :=
  { exampleDaemonSetTemplate with
    Spec := { exampleDaemonSetTemplate.Spec with
              Template := { exampleDaemonSetTemplate.Spec.Template with
                Spec := { exampleDaemonSetTemplate.Spec.Template.Spec with Volumes := [] } } } }

/-- A DaemonSet template whose volume named `config-volume` is backed by a host
path, not by a config map. -/
def exampleDaemonSetHostPathVolume : DaemonSet :=
  { exampleDaemonSetTemplate with
    Spec := { exampleDaemonSetTemplate.Spec with
              Template := { exampleDaemonSetTemplate.Spec.Template with
                Spec := { exampleDaemonSetTemplate.Spec.Template.Spec with
                  Volumes := [{ Name := "config-volume", ConfigMap := none
                                HostPath := some "/etc/coredns", Secret := none }] } } } }

/-- A ConfigMap template without a data map. -/
def exampleConfigMapNoData : ConfigMap :=
  { exampleConfigMapTemplate with Data := none }

/-- Invariant of the bytes written by `parseIPv6Loop`. -/
def ipv6Inv (ip : List Nat) : Prop :=
  ip.length % 2 = 0 ∧ ip.length ≤ 16 ∧ ∀ b ∈ ip, b < 256

def exampleInstallConfig : InstallConfig := { Networking := { ServiceCIDR := "172.30.0.5/16" } }

def exampleInstallConfigV6 : InstallConfig := { Networking := { ServiceCIDR := "fd02::/112" } }

/-- An install config whose service range is a 16-byte range of IPv4-mapped
addresses with eight host bits. -/
def exampleInstallConfigMapped : InstallConfig :=
  { Networking := { ServiceCIDR := "::ffff:10.0.0.0/120" } }

def exampleSmallInstallConfig : InstallConfig := { Networking := { ServiceCIDR := "172.30.0.0/29" } }

/-- A ConfigMap template whose `Corefile` text holds `cluster.local` inside
the two halves of another `cluster.local`. -/
def exampleConfigMapNested : ConfigMap :=
  { exampleConfigMapTemplate with Data := some [("Corefile", "clustercluster.local.local")] }

/-- A ClusterDNS whose cluster domain is the empty text. -/
def exampleClusterDNSEmptyDomain : ClusterDNS :=
  { exampleClusterDNS with Spec := { exampleClusterDNS.Spec with ClusterDomain := some "" } }

/-- A ClusterDNS without a cluster IP. -/
def exampleClusterDNSNoIP : ClusterDNS :=
  { exampleClusterDNS with Spec := { exampleClusterDNS.Spec with ClusterIP := none } }

/-- A Service template with a cluster IP of its own and a selector pair that no
DaemonSet template label matches. -/
def exampleServiceExtraSelector : Service :=
  { ObjectMeta := { Name := "", Namespace := "openshift-cluster-dns", Labels := none }
    Spec := { Selector := some [("tier", "infra")], ClusterIP := "172.30.0.2" } }

/-- The sample externals with another Service template. -/
def exampleExternalsWithService (t : Service) : Externals :=
  { exampleExternals with decodeService := fun _ => .ok t }

/-- A DaemonSet template with two volumes named `config-volume`. -/
def exampleDaemonSetTwoConfigVolumes : DaemonSet :=
  { exampleDaemonSetTemplate with
    Spec := { exampleDaemonSetTemplate.Spec with
              Template := { exampleDaemonSetTemplate.Spec.Template with
                Spec := { exampleDaemonSetTemplate.Spec.Template.Spec with
                  Volumes :=
                    [ { Name := "hosts", ConfigMap := none, HostPath := some "/etc/hosts"
                        Secret := none },
                      { Name := "config-volume"
                        ConfigMap := some { Name := "dns", Items := [("Corefile", "Corefile")] }
                        HostPath := none, Secret := none },
                      { Name := "config-volume"
                        ConfigMap := some { Name := "other", Items := [] }
                        HostPath := none, Secret := none } ] } } } }

def exampleInstallConfigEmpty : InstallConfig := { Networking := { ServiceCIDR := "" } }

def exampleInstallConfigNoPrefix : InstallConfig :=
  { Networking := { ServiceCIDR := "172.30.0.0" } }

def exampleInstallConfigWidePrefix : InstallConfig :=
  { Networking := { ServiceCIDR := "172.30.0.0/33" } }

/-- A ClusterDNS whose cluster domain is `foo.bar`. -/
def exampleClusterDNSFooBar : ClusterDNS :=
  { exampleClusterDNS with Spec := { exampleClusterDNS.Spec with ClusterDomain := some "foo.bar" } }

/-! # Theorems -/

open net

/-! ## Maps -/

theorem lookup_cons_ite (a b k' : String) (l : Entries) :
    List.lookup k' ((a, b) :: l) = if k' = a then some b else List.lookup k' l := by
  by_cases h : k' = a
  · simp [List.lookup, h]
  · have hb : (k' == a) = false := by simpa using h
    simp [List.lookup, h, hb]

theorem Entries.lookup_set (es : Entries) (k v k' : String) :
    (es.set k v).lookup k' = if k' = k then some v else es.lookup k' := by
  induction es with
  | nil => simp [Entries.set, lookup_cons_ite]
  | cons p rest ih =>
    obtain ⟨a, b⟩ := p
    by_cases ha : a = k
    · subst ha
      by_cases h : k' = a <;> simp [Entries.set, lookup_cons_ite, h]
    · by_cases h : k' = k
      · subst h
        have : ¬ k' = a := fun e => ha e.symm
        simp [Entries.set, lookup_cons_ite, ha, ih, this]
      · simp [Entries.set, lookup_cons_ite, ha, ih, h]

theorem GoMap.lookup_some_set (es : Entries) (k v k' : String) :
    GoMap.lookup (some (es.set k v)) k' = if k' = k then some v else es.lookup k' := by
  simp [GoMap.lookup, Entries.lookup_set]

theorem GoMap.lookup_orEmpty (m : GoMap) (k : String) :
    m.orEmpty.lookup k = m.lookup k := by
  cases m <;> simp [GoMap.orEmpty, GoMap.lookup, List.lookup]


theorem DNSDaemonSet_of_template (f : Factory) (x : Externals) (dns : ClusterDNS) (t : DaemonSet)
    (ht : x.decodeDaemonSet (x.MustAsset manifests.DNSDaemonSet) = .ok t) :
    f.DNSDaemonSet x dns =
      match t.Spec.Selector with
      | none => .panic nilDeref
      | some sel =>
        match repointConfigVolume ("dns-" ++ dns.ObjectMeta.Name) t.Spec.Template.Spec.Volumes with
        | none => .panic nilDeref
        | some (_, false) => .error "volume 'config-volume' not found"
        | some (vols, true) => .ok (renderDaemonSet f dns t sel vols) := by
  simp only [Factory.DNSDaemonSet, NewDaemonSet, MustAssetReader, ht, ofDecode]
  cases t.Spec.Selector with
  | none => rfl
  | some sel =>
    simp only
    cases repointConfigVolume ("dns-" ++ dns.ObjectMeta.Name) t.Spec.Template.Spec.Volumes with
    | none => rfl
    | some p =>
      obtain ⟨vols, b⟩ := p
      cases b <;> rfl

theorem DNSDaemonSet_ok_inv (f : Factory) (x : Externals) (dns : ClusterDNS) (ds : DaemonSet)
    (h : f.DNSDaemonSet x dns = .ok ds) :
    ∃ t sel vols, x.decodeDaemonSet (x.MustAsset manifests.DNSDaemonSet) = .ok t ∧
      t.Spec.Selector = some sel ∧
      repointConfigVolume ("dns-" ++ dns.ObjectMeta.Name) t.Spec.Template.Spec.Volumes
        = some (vols, true) ∧
      ds = renderDaemonSet f dns t sel vols := by
  cases ht : x.decodeDaemonSet (x.MustAsset manifests.DNSDaemonSet) with
  | error e =>
    simp [Factory.DNSDaemonSet, NewDaemonSet, MustAssetReader, ht, ofDecode] at h
  | ok t =>
    rw [DNSDaemonSet_of_template f x dns t ht] at h
    cases hs : t.Spec.Selector with
    | none => simp [hs] at h
    | some sel =>
      cases hv : repointConfigVolume ("dns-" ++ dns.ObjectMeta.Name) t.Spec.Template.Spec.Volumes with
      | none => simp [hs, hv] at h
      | some p =>
        obtain ⟨vols, b⟩ := p
        cases b with
        | false => simp [hs, hv] at h
        | true =>
          simp only [hs, hv, Outcome.ok.injEq] at h
          exact ⟨t, sel, vols, rfl, hs, hv, h.symm⟩


theorem DNSConfigMap_of_template (f : Factory) (x : Externals) (dns : ClusterDNS) (t : ConfigMap)
    (ht : x.decodeConfigMap (x.MustAsset manifests.DNSConfigMap) = .ok t) :
    f.DNSConfigMap x dns =
      match dns.Spec.ClusterDomain with
      | none =>
        .ok { t with ObjectMeta := { t.ObjectMeta with Name := "dns-" ++ dns.ObjectMeta.Name } }
      | some domain =>
        match strings.Replace (t.Data.get "Corefile") "cluster.local" domain (-1) with
        | none => .panic "runtime error: slice bounds out of range"
        | some text =>
          match t.Data with
          | none => .panic nilMapWrite
          | some es =>
            .ok { ObjectMeta := { t.ObjectMeta with Name := "dns-" ++ dns.ObjectMeta.Name }
                  Data := some (es.set "Corefile" text) } := by
  simp only [Factory.DNSConfigMap, NewConfigMap, MustAssetReader, ht, ofDecode]

theorem DNSConfigMap_ok_name (f : Factory) (x : Externals) (dns : ClusterDNS) (cm : ConfigMap)
    (h : f.DNSConfigMap x dns = .ok cm) :
    cm.ObjectMeta.Name = "dns-" ++ dns.ObjectMeta.Name := by
  cases ht : x.decodeConfigMap (x.MustAsset manifests.DNSConfigMap) with
  | error e => simp [Factory.DNSConfigMap, NewConfigMap, MustAssetReader, ht, ofDecode] at h
  | ok t =>
    rw [DNSConfigMap_of_template f x dns t ht] at h
    cases hd : dns.Spec.ClusterDomain with
    | none =>
      simp only [hd, Outcome.ok.injEq] at h
      rw [← h]
    | some domain =>
      simp only [hd] at h
      split at h
      · cases h
      · split at h
        · cases h
        · cases h
          rfl

theorem DNSService_of_template (f : Factory) (x : Externals) (dns : ClusterDNS) (t : Service)
    (ht : x.decodeService (x.MustAsset manifests.DNSService) = .ok t) :
    f.DNSService x dns =
      .ok { ObjectMeta := { t.ObjectMeta with
              Name := "dns-" ++ dns.ObjectMeta.Name
              Labels := some ((t.ObjectMeta.Labels.orEmpty).set "dns" ("dns-" ++ dns.ObjectMeta.Name)) }
            Spec := { t.Spec with
              Selector := some ((t.Spec.Selector.orEmpty).set "dns" ("dns-" ++ dns.ObjectMeta.Name))
              ClusterIP := match dns.Spec.ClusterIP with
                | some ip => ip
                | none => t.Spec.ClusterIP } } := by
  simp only [Factory.DNSService, NewService, MustAssetReader, ht, ofDecode]

theorem DNSService_ok_inv (f : Factory) (x : Externals) (dns : ClusterDNS) (s : Service)
    (h : f.DNSService x dns = .ok s) :
    ∃ t, x.decodeService (x.MustAsset manifests.DNSService) = .ok t ∧
      s = { ObjectMeta := { t.ObjectMeta with
              Name := "dns-" ++ dns.ObjectMeta.Name
              Labels := some ((t.ObjectMeta.Labels.orEmpty).set "dns" ("dns-" ++ dns.ObjectMeta.Name)) }
            Spec := { t.Spec with
              Selector := some ((t.Spec.Selector.orEmpty).set "dns" ("dns-" ++ dns.ObjectMeta.Name))
              ClusterIP := match dns.Spec.ClusterIP with
                | some ip => ip
                | none => t.Spec.ClusterIP } } := by
  cases ht : x.decodeService (x.MustAsset manifests.DNSService) with
  | error e => simp [Factory.DNSService, NewService, MustAssetReader, ht, ofDecode] at h
  | ok t =>
    rw [DNSService_of_template f x dns t ht] at h
    exact ⟨t, rfl, (Outcome.ok.inj h).symm⟩

/-- C3: whenever `DNSConfigMap`, `DNSDaemonSet` or `DNSService` returns an
object for a ClusterDNS named `N`, the name of that object is `"dns-" + N`,
whatever name the template carried. -/
theorem rendered_names_are_dns_prefixed (f : Factory) (x : Externals) (dns : ClusterDNS) :
    (∀ cm, f.DNSConfigMap x dns = .ok cm → cm.ObjectMeta.Name = "dns-" ++ dns.ObjectMeta.Name) ∧
    (∀ ds, f.DNSDaemonSet x dns = .ok ds → ds.ObjectMeta.Name = "dns-" ++ dns.ObjectMeta.Name) ∧
    (∀ s, f.DNSService x dns = .ok s → s.ObjectMeta.Name = "dns-" ++ dns.ObjectMeta.Name) := by
  refine ⟨fun cm h => DNSConfigMap_ok_name f x dns cm h, fun ds h => ?_, fun s h => ?_⟩
  · obtain ⟨t, sel, vols, -, -, -, rfl⟩ := DNSDaemonSet_ok_inv f x dns ds h
    rfl
  · obtain ⟨t, -, rfl⟩ := DNSService_ok_inv f x dns s h
    rfl

/-- C4: when `DNSDaemonSet` and `DNSService` both succeed for a ClusterDNS `d`,
the labels of the Service, the selector of the Service and the pod template
labels of the DaemonSet all map the key `dns` to `"dns-" + d.Name`. -/
theorem service_and_daemonset_share_dns_label (f : Factory) (x : Externals) (dns : ClusterDNS)
    (ds : DaemonSet) (s : Service)
    (hds : f.DNSDaemonSet x dns = .ok ds) (hs : f.DNSService x dns = .ok s) :
    s.ObjectMeta.Labels.lookup "dns" = some ("dns-" ++ dns.ObjectMeta.Name) ∧
    s.Spec.Selector.lookup "dns" = some ("dns-" ++ dns.ObjectMeta.Name) ∧
    ds.Spec.Template.ObjectMeta.Labels.lookup "dns" = some ("dns-" ++ dns.ObjectMeta.Name) := by
  obtain ⟨t, sel, vols, -, -, -, rfl⟩ := DNSDaemonSet_ok_inv f x dns ds hds
  obtain ⟨t', -, rfl⟩ := DNSService_ok_inv f x dns s hs
  simp [renderDaemonSet, GoMap.lookup_some_set]

/-- C5: when `DNSDaemonSet` succeeds on a template `t`, the selector's match
labels and the pod template labels of the result both hold the key `dns` with
the new name `"dns-" + d.Name` of the DaemonSet, and every other key of both
maps reads as in the template. -/
theorem daemonset_selector_matches_template_labels (f : Factory) (x : Externals)
    (dns : ClusterDNS) (t ds : DaemonSet)
    (ht : x.decodeDaemonSet (x.MustAsset manifests.DNSDaemonSet) = .ok t)
    (hds : f.DNSDaemonSet x dns = .ok ds) :
    ds.ObjectMeta.Name = "dns-" ++ dns.ObjectMeta.Name ∧
    ds.matchLabels.lookup "dns" = some ds.ObjectMeta.Name ∧
    ds.Spec.Template.ObjectMeta.Labels.lookup "dns" = some ds.ObjectMeta.Name ∧
    (∀ k, k ≠ "dns" →
      ds.matchLabels.lookup k = t.matchLabels.lookup k ∧
      ds.Spec.Template.ObjectMeta.Labels.lookup k
        = t.Spec.Template.ObjectMeta.Labels.lookup k) := by
  obtain ⟨t', sel, vols, ht', hsel, -, rfl⟩ := DNSDaemonSet_ok_inv f x dns ds hds
  rw [ht] at ht'
  cases ht'
  refine ⟨rfl, ?_, ?_, fun k hk => ⟨?_, ?_⟩⟩
  · simp [renderDaemonSet, DaemonSet.matchLabels, GoMap.lookup_some_set]
  · simp [renderDaemonSet, GoMap.lookup_some_set]
  · simp [renderDaemonSet, DaemonSet.matchLabels, GoMap.lookup_some_set, hk, hsel,
      GoMap.lookup_orEmpty]
  · simp [renderDaemonSet, GoMap.lookup_some_set, hk, GoMap.lookup_orEmpty]


/-! ## Volumes -/

theorem repoint_not_found (name : String) (vols : List Volume)
    (h : ∀ v ∈ vols, v.Name ≠ "config-volume") :
    repointConfigVolume name vols = some (vols, false) := by
  induction vols with
  | nil => rfl
  | cons v vs ih =>
    have hv : v.Name ≠ "config-volume" := h v (List.mem_cons_self _ _)
    have hvs : ∀ w ∈ vs, w.Name ≠ "config-volume" := fun w hw => h w (List.mem_cons_of_mem _ hw)
    simp [repointConfigVolume, hv, ih hvs]

theorem repoint_false_inv (name : String) (vols vols' : List Volume)
    (h : repointConfigVolume name vols = some (vols', false)) :
    ∀ v ∈ vols, v.Name ≠ "config-volume" := by
  induction vols generalizing vols' with
  | nil => simp
  | cons v vs ih =>
    by_cases hv : v.Name = "config-volume"
    · simp only [repointConfigVolume, hv, if_true] at h
      split at h <;> simp at h
    · simp only [repointConfigVolume, hv, if_false] at h
      split at h
      · simp at h
      · rename_i vs' found heq
        simp only [Option.some.injEq, Prod.mk.injEq] at h
        obtain ⟨-, rfl⟩ := h
        intro w hw
        rcases List.mem_cons.1 hw with rfl | hw
        · exact hv
        · exact ih vs' heq w hw

theorem repoint_true_find (name : String) (vols vols' : List Volume)
    (h : repointConfigVolume name vols = some (vols', true)) :
    ∃ v src, vols'.find? (fun w => w.Name = "config-volume") = some v ∧
      v.ConfigMap = some src ∧ src.Name = name := by
  induction vols generalizing vols' with
  | nil => simp [repointConfigVolume] at h
  | cons v vs ih =>
    by_cases hv : v.Name = "config-volume"
    · simp only [repointConfigVolume, hv, if_true] at h
      split at h
      · simp at h
      · rename_i src hsrc
        simp only [Option.some.injEq, Prod.mk.injEq, and_true] at h
        subst h
        exact ⟨{ v with ConfigMap := some { src with Name := name } }, { src with Name := name },
          by simp [List.find?, hv], rfl, rfl⟩
    · simp only [repointConfigVolume, hv, if_false] at h
      split at h
      · simp at h
      · rename_i vs' found heq
        simp only [Option.some.injEq, Prod.mk.injEq] at h
        obtain ⟨rfl, rfl⟩ := h
        obtain ⟨w, src, hw, hsrc, hname⟩ := ih vs' heq
        exact ⟨w, src, by simp [List.find?, hv, hw], hsrc, hname⟩

/-- With a selector in the template, a template without a volume named
`config-volume` makes `DNSDaemonSet` return the error and no object. -/
theorem DNSDaemonSet_volume_missing (f : Factory) (x : Externals) (dns : ClusterDNS)
    (t : DaemonSet) (sel : LabelSelector)
    (ht : x.decodeDaemonSet (x.MustAsset manifests.DNSDaemonSet) = .ok t)
    (hsel : t.Spec.Selector = some sel)
    (hvol : ∀ v ∈ t.Spec.Template.Spec.Volumes, v.Name ≠ "config-volume") :
    f.DNSDaemonSet x dns = .error "volume 'config-volume' not found" := by
  rw [DNSDaemonSet_of_template f x dns t ht, hsel]
  simp only [repoint_not_found _ _ hvol]

/-- A template that declares a volume named `config-volume` never makes
`DNSDaemonSet` return the error of the missing volume. -/
theorem DNSDaemonSet_volume_present (f : Factory) (x : Externals) (dns : ClusterDNS)
    (t : DaemonSet) (v : Volume)
    (ht : x.decodeDaemonSet (x.MustAsset manifests.DNSDaemonSet) = .ok t)
    (hv : v ∈ t.Spec.Template.Spec.Volumes) (hname : v.Name = "config-volume") :
    f.DNSDaemonSet x dns ≠ .error "volume 'config-volume' not found" := by
  rw [DNSDaemonSet_of_template f x dns t ht]
  cases hsel : t.Spec.Selector with
  | none => simp
  | some sel =>
    cases hr : repointConfigVolume ("dns-" ++ dns.ObjectMeta.Name) t.Spec.Template.Spec.Volumes with
    | none => simp
    | some p =>
      obtain ⟨vols, b⟩ := p
      cases b with
      | true => simp
      | false => exact absurd hname (repoint_false_inv _ _ _ hr v hv)

/-- C7: when `DNSConfigMap` and `DNSDaemonSet` both succeed, the volume named
`config-volume` that the rendered DaemonSet declares is config-map-backed and
the config-map name it refers to is the name of the rendered ConfigMap,
`"dns-" + d.Name`. -/
theorem config_volume_refers_to_rendered_configmap (f : Factory) (x : Externals)
    (dns : ClusterDNS) (cm : ConfigMap) (ds : DaemonSet)
    (hcm : f.DNSConfigMap x dns = .ok cm) (hds : f.DNSDaemonSet x dns = .ok ds) :
    ∃ v src, ds.Spec.Template.Spec.Volumes.find? (fun w => w.Name = "config-volume") = some v ∧
      v.ConfigMap = some src ∧ src.Name = cm.ObjectMeta.Name ∧
      cm.ObjectMeta.Name = "dns-" ++ dns.ObjectMeta.Name := by
  obtain ⟨t, sel, vols, -, -, hvols, rfl⟩ := DNSDaemonSet_ok_inv f x dns ds hds
  obtain ⟨v, src, hfind, hsrc, hname⟩ := repoint_true_find _ _ _ hvols
  have hcmname := DNSConfigMap_ok_name f x dns cm hcm
  exact ⟨v, src, hfind, hsrc, by rw [hname, hcmname], hcmname⟩

/-! ## Containers -/

theorem patchContainer_name (f : Factory) (dns : ClusterDNS) (c : Container) :
    (patchContainer f dns c).Name = c.Name := by
  unfold patchContainer
  split
  · rfl
  · split
    · split <;> rfl
    · rfl

theorem patchContainer_resolver_env_set (f : Factory) (dns : ClusterDNS) (c : Container)
    (ip domain : String) (hc : c.Name = "dns-node-resolver")
    (hip : dns.Spec.ClusterIP = some ip) (hdom : dns.Spec.ClusterDomain = some domain) :
    (patchContainer f dns c).Env =
      c.Env ++ [{ Name := "NAMESERVER", Value := ip }, { Name := "CLUSTER_DOMAIN", Value := domain }] := by
  have h1 : c.Name ≠ "dns" := by rw [hc]; decide
  simp [patchContainer, h1, hc, hip, hdom]

theorem patchContainer_resolver_env_unset (f : Factory) (dns : ClusterDNS) (c : Container)
    (hc : c.Name = "dns-node-resolver")
    (h : dns.Spec.ClusterIP = none ∨ dns.Spec.ClusterDomain = none) :
    (patchContainer f dns c).Env = c.Env := by
  have h1 : c.Name ≠ "dns" := by rw [hc]; decide
  have h2 : ¬ ("dns-node-resolver" = "dns") := by decide
  unfold patchContainer
  rw [if_neg h1, if_pos hc]
  rcases h with h | h
  · rw [h]
  · rw [h]
    cases dns.Spec.ClusterIP <;> rfl

/-- C8: when `DNSDaemonSet` succeeds on a template `t`, the rendered containers
stand one for one against the template's, with the same names, and for each
container named `dns-node-resolver`: if the ClusterDNS has both its cluster IP
and its cluster domain set, the container's `Env` is the template's `Env`
followed by `NAMESERVER` = cluster IP and `CLUSTER_DOMAIN` = cluster domain,
in that order; if either is absent, its `Env` is the template's `Env`. -/
theorem node_resolver_env (f : Factory) (x : Externals) (dns : ClusterDNS) (t ds : DaemonSet)
    (ht : x.decodeDaemonSet (x.MustAsset manifests.DNSDaemonSet) = .ok t)
    (hds : f.DNSDaemonSet x dns = .ok ds) :
    List.Forall₂
      (fun c c' => c'.Name = c.Name ∧ (c.Name = "dns-node-resolver" →
        (∀ ip domain, dns.Spec.ClusterIP = some ip → dns.Spec.ClusterDomain = some domain →
          c'.Env = c.Env ++ [{ Name := "NAMESERVER", Value := ip },
                             { Name := "CLUSTER_DOMAIN", Value := domain }]) ∧
        ((dns.Spec.ClusterIP = none ∨ dns.Spec.ClusterDomain = none) → c'.Env = c.Env)))
      t.Spec.Template.Spec.Containers ds.Spec.Template.Spec.Containers := by
  obtain ⟨t', sel, vols, ht', -, -, rfl⟩ := DNSDaemonSet_ok_inv f x dns ds hds
  rw [ht] at ht'
  cases ht'
  simp only [renderDaemonSet]
  rw [List.forall₂_map_right_iff]
  apply List.forall₂_same.2
  intro c _
  exact ⟨patchContainer_name f dns c, fun hc =>
    ⟨fun ip domain hip hdom => patchContainer_resolver_env_set f dns c ip domain hc hip hdom,
     fun h => patchContainer_resolver_env_unset f dns c hc h⟩⟩

/-! ## Replacement of all occurrences -/

theorem splitScan_skip (sep : List Char) (s : List Char) (k : Nat) (cur : List Char) :
    splitScan sep s k cur = splitScan sep (s.drop k) 0 cur := by
  induction s generalizing k with
  | nil => simp [splitScan]
  | cons c cs ih =>
    cases k with
    | zero => rfl
    | succ k => simp [splitScan, ih k]

theorem splitScan_ne_nil (sep : List Char) (s : List Char) (k : Nat) (cur : List Char) :
    splitScan sep s k cur ≠ [] := by
  induction s generalizing k cur with
  | nil => simp [splitScan]
  | cons c cs ih =>
    cases k with
    | zero =>
      simp only [splitScan]
      split
      · simp
      · exact ih _ _
    | succ k => simpa [splitScan] using ih k cur

theorem Index_prefix (old : List Char) (s : List Char) (i : Nat)
    (h : strings.Index s old = some i) : s.drop i = old ++ s.drop (i + old.length) := by
  induction s generalizing i with
  | nil =>
    simp only [strings.Index] at h
    split at h
    · rename_i ho
      cases h
      simp [ho]
    · cases h
  | cons c cs ih =>
    simp only [strings.Index] at h
    split at h
    · rename_i hp
      cases h
      obtain ⟨r, hr⟩ := List.isPrefixOf_iff_prefix.1 hp
      simp only [List.drop_zero, Nat.zero_add]
      rw [← hr]
      simp
    · cases hi : strings.Index cs old with
      | none => simp [hi] at h
      | some j =>
        simp only [hi, Option.map_some', Option.some.injEq] at h
        subst h
        have := ih j hi
        simpa [Nat.add_right_comm] using this

theorem Index_bound (old : List Char) (s : List Char) (i : Nat)
    (h : strings.Index s old = some i) : i + old.length ≤ s.length := by
  induction s generalizing i with
  | nil =>
    simp only [strings.Index] at h
    split at h
    · rename_i ho
      cases h
      simp [ho]
    · cases h
  | cons c cs ih =>
    simp only [strings.Index] at h
    split at h
    · rename_i hp
      cases h
      have := (List.isPrefixOf_iff_prefix.1 hp).length_le
      simpa using this
    · cases hi : strings.Index cs old with
      | none => simp [hi] at h
      | some j =>
        simp only [hi, Option.map_some', Option.some.injEq] at h
        subst h
        have := ih j hi
        simp only [List.length_cons]
        omega

theorem splitScan_of_Index_none (old : List Char) (s cur : List Char)
    (h : strings.Index s old = none) : splitScan old s 0 cur = [cur ++ s] := by
  induction s generalizing cur with
  | nil => simp [splitScan]
  | cons c cs ih =>
    simp only [strings.Index] at h
    split at h
    · cases h
    · rename_i hp
      have hcs : strings.Index cs old = none := by
        cases hi : strings.Index cs old with
        | none => rfl
        | some j => simp [hi] at h
      simp only [splitScan, hp, if_false, Bool.false_eq_true]
      rw [ih _ hcs]
      simp

theorem splitScan_of_Index_some (old : List Char) (hold : old ≠ []) (s cur : List Char) (i : Nat)
    (h : strings.Index s old = some i) :
    splitScan old s 0 cur = (cur ++ s.take i) :: splitScan old (s.drop (i + old.length)) 0 [] := by
  induction s generalizing cur i with
  | nil => simp [strings.Index, hold] at h
  | cons c cs ih =>
    simp only [strings.Index] at h
    split at h
    · rename_i hp
      cases h
      simp only [splitScan, hp, if_true, List.take_zero, List.append_nil, Nat.zero_add]
      rw [splitScan_skip]
      have hl : old.length = (old.length - 1) + 1 := by
        have : 0 < old.length := List.length_pos.2 hold
        omega
      congr 2
      rw [hl]
      simp
    · rename_i hp
      cases hi : strings.Index cs old with
      | none => simp [hi] at h
      | some j =>
        simp only [hi, Option.map_some', Option.some.injEq] at h
        subst h
        simp only [splitScan, hp, if_false, Bool.false_eq_true]
        rw [ih _ j hi]
        simp [Nat.add_right_comm]

theorem countLoop_eq (old : List Char) (hold : old ≠ []) (fuel : Nat) (s : List Char) (n : Nat)
    (hfuel : s.length < fuel) :
    strings.countLoop old fuel s n + 1 = n + (splitScan old s 0 []).length := by
  induction fuel generalizing s n with
  | zero => omega
  | succ fuel ih =>
    simp only [strings.countLoop]
    cases hi : strings.Index s old with
    | none => simp [splitScan_of_Index_none old s [] hi]
    | some i =>
      have hb := Index_bound old s i hi
      have hpos : 0 < old.length := List.length_pos.2 hold
      have hlen : (s.drop (i + old.length)).length < fuel := by
        simp only [List.length_drop]
        omega
      simp only
      rw [ih _ _ hlen, splitScan_of_Index_some old hold s [] i hi]
      simp only [List.length_cons]
      omega

theorem Count_eq (old : List Char) (hold : old ≠ []) (s : List Char) :
    strings.Count s old + 1 = (splitScan old s 0 []).length := by
  have hpos : 0 < old.length := List.length_pos.2 hold
  have h0 : old.length ≠ 0 := by omega
  simp only [strings.Count, h0, if_false]
  simpa using countLoop_eq old hold (s.length + 1) s 0 (Nat.lt_succ_self _)

theorem intercalate_cons_cons (sep a b : List Char) (l : List (List Char)) :
    List.intercalate sep (a :: b :: l) = a ++ sep ++ List.intercalate sep (b :: l) := by
  simp [List.intercalate, List.intersperse]

theorem intercalate_cons_of_ne_nil (sep a : List Char) (l : List (List Char)) (hl : l ≠ []) :
    List.intercalate sep (a :: l) = a ++ sep ++ List.intercalate sep l := by
  cases l with
  | nil => exact absurd rfl hl
  | cons b l => exact intercalate_cons_cons sep a b l

theorem replaceLoop_eq (s old new : List Char) (hold : old ≠ []) (k i start : Nat) (t : List Char)
    (hk : (splitScan old (s.drop start) 0 []).length = k + 1) :
    strings.replaceLoop s old new k i start t
      = some (t ++ List.intercalate new (splitScan old (s.drop start) 0 [])) := by
  have hpos : 0 < old.length := List.length_pos.2 hold
  have h0 : old.length ≠ 0 := by omega
  induction k generalizing i start t with
  | zero =>
    cases hi : strings.Index (s.drop start) old with
    | none =>
      simp [strings.replaceLoop, splitScan_of_Index_none old _ [] hi, List.intercalate]
    | some j =>
      rw [splitScan_of_Index_some old hold _ [] j hi] at hk
      have := splitScan_ne_nil old ((s.drop start).drop (j + old.length)) 0 []
      have hlen := List.length_pos.2 this
      simp only [List.length_cons] at hk
      omega
  | succ k ih =>
    cases hi : strings.Index (s.drop start) old with
    | none =>
      rw [splitScan_of_Index_none old _ [] hi] at hk
      simp at hk
    | some j =>
      have hsplit := splitScan_of_Index_some old hold _ [] j hi
      rw [hsplit] at hk
      simp only [List.length_cons, Nat.add_right_cancel_iff, List.drop_drop] at hk
      have hk' : (splitScan old (s.drop (start + j + old.length)) 0 []).length = k + 1 := by
        rw [← hk]
        congr 3
        omega
      simp only [strings.replaceLoop, h0, if_false, hi, Option.map_some']
      rw [ih (i + 1) (start + j + old.length) _ hk', hsplit]
      have hne := splitScan_ne_nil old ((s.drop start).drop (j + old.length)) 0 []
      rw [intercalate_cons_of_ne_nil _ _ _ hne]
      simp only [List.drop_drop, List.nil_append, Nat.add_sub_cancel_left, List.append_assoc,
        Option.some.injEq]
      rw [Nat.add_assoc]


theorem intercalate_splitScan_self (old : List Char) (hold : old ≠ []) (n : Nat) :
    ∀ (s cur : List Char), s.length ≤ n →
      List.intercalate old (splitScan old s 0 cur) = cur ++ s := by
  induction n with
  | zero =>
    intro s cur hs
    have : s = [] := List.length_eq_zero.1 (Nat.le_zero.1 hs)
    subst this
    simp [splitScan, List.intercalate]
  | succ n ih =>
    intro s cur hs
    cases hi : strings.Index s old with
    | none => simp [splitScan_of_Index_none old s cur hi, List.intercalate]
    | some i =>
      have hb := Index_bound old s i hi
      have hpos : 0 < old.length := List.length_pos.2 hold
      have hp := Index_prefix old s i hi
      rw [splitScan_of_Index_some old hold s cur i hi,
        intercalate_cons_of_ne_nil _ _ _ (splitScan_ne_nil _ _ _ _),
        ih (s.drop (i + old.length)) [] (by simp only [List.length_drop]; omega)]
      simp only [List.nil_append, List.append_assoc]
      rw [← hp, List.take_append_drop]

/-- On a non-empty `old`, `strings.Replace` with `n = -1` returns, and what it
returns is the pieces of `s` split on `old` joined by `new`. -/
theorem replaceChars_eq_intercalate (s old new : List Char) (hold : old ≠ []) :
    strings.replaceChars s old new (-1)
      = some (List.intercalate new (splitScan old s 0 [])) := by
  unfold strings.replaceChars
  by_cases heq : old = new
  · subst heq
    simp [intercalate_splitScan_self old hold s.length s [] (Nat.le_refl _)]
  · have hc := Count_eq old hold s
    by_cases hm : strings.Count s old = 0
    · have hlen : (splitScan old s 0 []).length = 1 := by omega
      cases hi : strings.Index s old with
      | none =>
        simp [heq, hm, splitScan_of_Index_none old s [] hi, List.intercalate]
      | some i =>
        rw [splitScan_of_Index_some old hold s [] i hi] at hlen
        have := List.length_pos.2 (splitScan_ne_nil old (s.drop (i + old.length)) 0 [])
        simp only [List.length_cons] at hlen
        omega
    · have h1 : ¬ (old = new ∨ (-1 : Int) = 0) := by simp [heq]
      simp only [h1, if_false, hm]
      have hneg : ((-1 : Int) < 0 ∨ (strings.Count s old : Int) < -1) := Or.inl (by decide)
      simp only [hneg, if_true]
      have := replaceLoop_eq s old new hold (strings.Count s old) 0 0 []
        (by simpa using hc.symm)
      simpa using this

theorem Replace_eq_splitJoin (t old new : String) (hold : old.data ≠ []) :
    strings.Replace t old new (-1) = some (splitJoin t old new) := by
  simp [strings.Replace, splitJoin, piecesOf, replaceChars_eq_intercalate t.data old.data new.data hold]

theorem lookup_get (m : GoMap) (k v : String) (h : m.lookup k = some v) : m.get k = v := by
  simp [GoMap.get, h]

/-- C9: for a ConfigMap template whose data has a `Corefile` entry with text
`text` and a ClusterDNS with cluster domain `D`, `DNSConfigMap` returns a
ConfigMap whose `Corefile` text is the pieces of `text` split on
`cluster.local` (its left-to-right, non-overlapping occurrences) joined by `D`:
every occurrence is replaced and the text between occurrences is kept in
order. -/
theorem corefile_domain_replaced (f : Factory) (x : Externals) (dns : ClusterDNS)
    (t : ConfigMap) (text D : String)
    (ht : x.decodeConfigMap (x.MustAsset manifests.DNSConfigMap) = .ok t)
    (htext : t.Data.lookup "Corefile" = some text)
    (hD : dns.Spec.ClusterDomain = some D) :
    ∃ cm, f.DNSConfigMap x dns = .ok cm ∧
      cm.Data.lookup "Corefile" = some (splitJoin text "cluster.local" D) := by
  rw [DNSConfigMap_of_template f x dns t ht, hD]
  have hget := lookup_get _ _ _ htext
  have hrep := Replace_eq_splitJoin text "cluster.local" D (by decide)
  cases hdata : t.Data with
  | none => simp [hdata, GoMap.lookup] at htext
  | some es =>
    rw [hdata] at hget
    simp only [hget, hrep]
    exact ⟨_, rfl, by simp [GoMap.lookup_some_set]⟩

theorem corefile_domain_replaced_witness :
    exampleExternals.decodeConfigMap (exampleExternals.MustAsset manifests.DNSConfigMap)
      = .ok exampleConfigMapTemplate ∧
    exampleConfigMapTemplate.Data.lookup "Corefile" = some
      ".:5353 kubernetes cluster.local in-addr.arpa ip6.arpa; rewrite cluster.local; reload" ∧
    splitJoin ".:5353 kubernetes cluster.local in-addr.arpa ip6.arpa; rewrite cluster.local; reload"
      "cluster.local" "example.local"
      = ".:5353 kubernetes example.local in-addr.arpa ip6.arpa; rewrite example.local; reload" ∧
    ∃ cm, exampleFactory.DNSConfigMap exampleExternals exampleClusterDNS = .ok cm ∧
      cm.Data.lookup "Corefile" = some (splitJoin
        ".:5353 kubernetes cluster.local in-addr.arpa ip6.arpa; rewrite cluster.local; reload"
        "cluster.local" "example.local") :=
  ⟨by decide, by decide, by decide,
   corefile_domain_replaced exampleFactory exampleExternals exampleClusterDNS
     exampleConfigMapTemplate _ "example.local" (by decide) (by decide) (by decide)⟩

/-! ## Text of an address -/

theorem decimal_digit_ne_slash (d : Nat) (hd : d < 10) : Char.ofNat (48 + d) ≠ '/' := by
  interval_cases d <;> decide

theorem uitoaLoop_no_slash (fuel val : Nat) (acc : List Char) (hacc : ∀ c ∈ acc, c ≠ '/') :
    ∀ c ∈ uitoaLoop fuel val acc, c ≠ '/' := by
  induction fuel generalizing val acc with
  | zero => simpa [uitoaLoop] using hacc
  | succ fuel ih =>
    unfold uitoaLoop
    split
    · apply ih
      intro c hc
      rcases List.mem_cons.1 hc with rfl | hc
      · exact decimal_digit_ne_slash _ (Nat.mod_lt _ (by decide))
      · exact hacc c hc
    · rename_i hlt
      intro c hc
      rcases List.mem_cons.1 hc with rfl | hc
      · exact decimal_digit_ne_slash _ (by omega)
      · exact hacc c hc

theorem uitoa_no_slash (val : Nat) : ∀ c ∈ uitoa val, c ≠ '/' := by
  unfold uitoa
  split
  · intro c hc
    simp only [List.mem_singleton] at hc
    subst hc
    decide
  · exact uitoaLoop_no_slash 20 val [] (by simp)

theorem hexDigit_ne_slash (v : Nat) : hexDigit v ≠ '/' := by
  unfold hexDigit
  have h : v % 16 < 16 := Nat.mod_lt _ (by decide)
  generalize v % 16 = k at h
  interval_cases k <;> decide

theorem appendHex_no_slash (i : Nat) : ∀ c ∈ appendHex i, c ≠ '/' := by
  unfold appendHex
  split
  · intro c hc
    simp only [List.mem_singleton] at hc
    subst hc
    decide
  · intro c hc
    simp only [List.mem_filterMap] at hc
    obtain ⟨j, -, hj⟩ := hc
    split at hj
    · cases hj
      exact hexDigit_ne_slash _
    · cases hj

theorem dotted_no_slash (v : Nat) : ∀ c ∈ dotted v, c ≠ '/' := by
  intro c hc
  have hdot : c = '.' → c ≠ '/' := by
    intro h
    subst h
    decide
  simp only [dotted, List.mem_append, List.mem_cons] at hc
  rcases hc with ((h | h | h) | h | h) | h | h
  all_goals first
    | exact uitoa_no_slash _ c h
    | exact hdot h

theorem printGroups_no_slash (g : List Nat) (run : Option (Nat × Nat)) (fuel i : Nat) :
    ∀ c ∈ printGroups g run fuel i, c ≠ '/' := by
  induction fuel generalizing i with
  | zero => simp [printGroups]
  | succ fuel ih =>
    have hsep : ∀ c ∈ (if i > 0 then [':'] else []), c ≠ '/' := by
      intro c hc
      split at hc
      · simp only [List.mem_singleton] at hc
        subst hc
        decide
      · simp at hc
    have hplain : ∀ c ∈ (if i > 0 then [':'] else []) ++ appendHex (g.getD i 0)
        ++ printGroups g run fuel (i + 1), c ≠ '/' := by
      intro c hc
      simp only [List.mem_append] at hc
      rcases hc with (h | h) | h
      · exact hsep c h
      · exact appendHex_no_slash _ c h
      · exact ih _ c h
    unfold printGroups
    split
    · simp
    · cases run with
      | none => exact hplain
      | some p =>
        obtain ⟨e0, e1⟩ := p
        simp only
        split
        · intro c hc
          simp only [List.mem_cons] at hc
          rcases hc with rfl | rfl | hc
          · decide
          · decide
          · split at hc
            · simp at hc
            · simp only [List.mem_append] at hc
              rcases hc with h | h
              · exact appendHex_no_slash _ c h
              · exact ih _ c h
        · exact hplain

/-- The text of an address holds no `/`. -/
theorem IP_String_no_slash (ip : net.IP) : '/' ∉ ip.String.data := by
  intro hmem
  unfold IP.String at hmem
  split at hmem
  · exact dotted_no_slash _ _ hmem rfl
  · split at hmem
    · split at hmem
      · exact dotted_no_slash _ _ hmem rfl
      · exact printGroups_no_slash _ _ _ _ _ hmem rfl
    · simp at hmem

/-! ## Parsed addresses are well formed -/

theorem bytesVal_foldl_bound (bs : List Nat) (hbs : ∀ b ∈ bs, b < 256) (acc k : Nat)
    (hacc : acc < 256 ^ k) :
    bs.foldl (fun a b => a * 256 + b) acc < 256 ^ (k + bs.length) := by
  induction bs generalizing acc k with
  | nil => simpa using hacc
  | cons b bs ih =>
    have hb : b < 256 := hbs b (List.mem_cons_self _ _)
    have hrest : ∀ c ∈ bs, c < 256 := fun c hc => hbs c (List.mem_cons_of_mem _ hc)
    have hstep : acc * 256 + b < 256 ^ (k + 1) := by
      have : (acc + 1) * 256 ≤ 256 ^ k * 256 := Nat.mul_le_mul_right _ hacc
      rw [Nat.pow_succ]
      omega
    have := ih hrest (acc * 256 + b) (k + 1) hstep
    simpa [List.foldl, Nat.add_assoc, Nat.add_comm 1] using this

theorem bytesVal_bound (bs : List Nat) (hbs : ∀ b ∈ bs, b < 256) :
    bytesVal bs < 256 ^ bs.length := by
  have := bytesVal_foldl_bound bs hbs 0 0 (by simp)
  simpa [bytesVal] using this

theorem parseOctets_wf (k : Nat) (first : Bool) (s : List Char) (os : List Nat) (r : List Char)
    (h : parseOctets k first s = some (os, r)) :
    os.length = k ∧ ∀ b ∈ os, b < 256 := by
  induction k generalizing first s os r with
  | zero =>
    simp only [parseOctets, Option.some.injEq, Prod.mk.injEq] at h
    obtain ⟨rfl, -⟩ := h
    simp
  | succ k ih =>
    simp only [parseOctets] at h
    split at h
    · cases h
    · split at h
      · cases h
      · split at h
        · cases h
        · split at h
          · cases h
          · split at h
            · cases h
            · rename_i os' r' hrec
              simp only [Option.some.injEq, Prod.mk.injEq] at h
              obtain ⟨rfl, -⟩ := h
              obtain ⟨hl, hb⟩ := ih _ _ _ _ hrec
              refine ⟨by simp [hl], ?_⟩
              intro b hbm
              rcases List.mem_cons.1 hbm with rfl | hbm
              · exact Nat.mod_lt _ (by decide)
              · exact hb b hbm

theorem parseIPv4_wf (s : List Char) (os : List Nat) (h : parseIPv4 s = some os) :
    os.length = 4 ∧ ∀ b ∈ os, b < 256 := by
  unfold parseIPv4 at h
  split at h
  · rename_i os' hp
    cases h
    exact parseOctets_wf 4 true s os [] hp
  · cases h

theorem parseIPv6Loop_wf (fuel : Nat) (s : List Char) (e : Option Nat) (ip : List Nat)
    (s' : List Char) (e' : Option Nat) (ip' : List Nat)
    (h : parseIPv6Loop fuel s e ip = some (s', e', ip')) (hinv : ipv6Inv ip) :
    ipv6Inv ip' := by
  induction fuel generalizing s e ip with
  | zero => simp [parseIPv6Loop] at h
  | succ fuel ih =>
    obtain ⟨heven, hle, hbytes⟩ := hinv
    simp only [parseIPv6Loop] at h
    split at h
    · simp only [Option.some.injEq, Prod.mk.injEq] at h
      obtain ⟨-, -, rfl⟩ := h
      exact ⟨heven, hle, hbytes⟩
    · rename_i hlt
      split at h
      · cases h
      · rename_i n c rest hx
        split at h
        · cases h
        · split at h
          · split at h
            · cases h
            · split at h
              · cases h
              · rename_i h16
                split at h
                · cases h
                · rename_i ip4 h4
                  simp only [Option.some.injEq, Prod.mk.injEq] at h
                  obtain ⟨-, -, rfl⟩ := h
                  obtain ⟨hl4, hb4⟩ := parseIPv4_wf _ _ h4
                  refine ⟨by simp only [List.length_append, hl4]; omega,
                    by simp only [List.length_append, hl4]; omega, ?_⟩
                  intro b hb
                  rcases List.mem_append.1 hb with hb | hb
                  · exact hbytes b hb
                  · exact hb4 b hb
          · have hinv' : ipv6Inv (ip ++ [n / 256 % 256, n % 256]) := by
              refine ⟨by simp only [List.length_append, List.length_cons, List.length_nil]; omega,
                by simp only [List.length_append, List.length_cons, List.length_nil]; omega, ?_⟩
              intro b hb
              rcases List.mem_append.1 hb with hb | hb
              · exact hbytes b hb
              · simp only [List.mem_cons, List.mem_singleton, List.not_mem_nil, or_false] at hb
                rcases hb with rfl | rfl
                · exact Nat.mod_lt _ (by decide)
                · exact Nat.mod_lt _ (by decide)
            split at h
            · simp only [Option.some.injEq, Prod.mk.injEq] at h
              obtain ⟨-, -, rfl⟩ := h
              exact hinv'
            · split at h
              · cases h
              · split at h
                · split at h
                  · cases h
                  · split at h
                    · simp only [Option.some.injEq, Prod.mk.injEq] at h
                      obtain ⟨-, -, rfl⟩ := h
                      exact hinv'
                    · exact ih _ _ _ h hinv'
                · exact ih _ _ _ h hinv'

theorem finishIPv6_wf (st : List Char × Option Nat × List Nat) (bs : List Nat)
    (h : finishIPv6 st = some bs) (hinv : ipv6Inv st.2.2) :
    bs.length = 16 ∧ ∀ b ∈ bs, b < 256 := by
  obtain ⟨s, e, ip⟩ := st
  obtain ⟨-, hle, hbytes⟩ := hinv
  simp only [finishIPv6] at h
  split at h
  · cases h
  · split at h
    · rename_i hlt
      split at h
      · cases h
      · rename_i e0
        cases h
        refine ⟨by simp only [List.length_append, List.length_take, List.length_replicate,
          List.length_drop]; omega, ?_⟩
        intro b hb
        simp only [List.mem_append, List.mem_replicate] at hb
        rcases hb with (hb | hb) | hb
        · exact hbytes b (List.mem_of_mem_take hb)
        · rw [hb.2]; decide
        · exact hbytes b (List.mem_of_mem_drop hb)
    · split at h
      · cases h
      · cases h
        exact ⟨by simp only at hle; omega, hbytes⟩

theorem ipv6Inv_nil : ipv6Inv [] := ⟨rfl, by simp, by simp⟩

theorem parseIPv6_wf (s : List Char) (bs : List Nat) (h : parseIPv6 s = some bs) :
    bs.length = 16 ∧ ∀ b ∈ bs, b < 256 := by
  have key : ∀ (s0 : List Char) (e0 : Option Nat),
      (parseIPv6Loop 9 s0 e0 []).bind finishIPv6 = some bs →
      bs.length = 16 ∧ ∀ b ∈ bs, b < 256 := by
    intro s0 e0 hb
    cases hl : parseIPv6Loop 9 s0 e0 [] with
    | none => simp [hl] at hb
    | some st =>
      obtain ⟨s', e', ip'⟩ := st
      simp only [hl, Option.some_bind] at hb
      exact finishIPv6_wf _ _ hb (parseIPv6Loop_wf _ _ _ _ _ _ _ hl ipv6Inv_nil)
  unfold parseIPv6 at h
  split at h
  · cases h
    exact ⟨by simp, by intro b hb; rw [(List.mem_replicate.1 hb).2]; decide⟩
  · exact key _ _ h
  · exact key _ _ h

theorem ParseCIDR_wf (s : String) (ip : net.IP) (n : IPNet) (h : ParseCIDR s = .ok (ip, n)) :
    (ip.len = 4 ∨ ip.len = 16) ∧ ip.val < 2 ^ ip.bits ∧ n.IP = ip.Mask n.ones ∧
      n.ones ≤ ip.bits := by
  unfold ParseCIDR at h
  simp only at h
  split at h
  · cases h
  · split at h
    · rename_i ip0 n0 i0 r0 hparsed hmask
      split at h
      · cases h
      · rename_i hcond
        simp only [Except.ok.injEq, Prod.mk.injEq] at h
        obtain ⟨rfl, rfl⟩ := h
        have hones : n0 ≤ 8 * ip0.len := by
          simp only [not_or, not_lt, Decidable.not_not] at hcond
          omega
        have hip : (ip0.len = 4 ∨ ip0.len = 16) ∧ ip0.val < 2 ^ ip0.bits := by
          split at hparsed
          · rename_i os h4
            cases hparsed
            obtain ⟨hl, hb⟩ := parseIPv4_wf _ _ h4
            refine ⟨Or.inl rfl, ?_⟩
            have := bytesVal_bound os hb
            rw [hl] at this
            simpa [IP.bits] using this
          · rename_i h4
            obtain ⟨bs, h6, rfl⟩ := Option.map_eq_some'.1 hparsed
            obtain ⟨hl, hb⟩ := parseIPv6_wf _ _ h6
            refine ⟨Or.inr rfl, ?_⟩
            have := bytesVal_bound bs hb
            rw [hl] at this
            simpa [IP.bits] using this
        exact ⟨hip.1, hip.2, rfl, hones⟩
    · cases h

theorem masked_add_bound (v B ones k : Nat) (hv : v < 2 ^ B) (hones : ones ≤ B)
    (hk : k < 2 ^ (B - ones)) :
    v / 2 ^ (B - ones) * 2 ^ (B - ones) + k < 2 ^ B := by
  have hP : 0 < 2 ^ (B - ones) := Nat.two_pow_pos _
  have hsplit : 2 ^ B = 2 ^ ones * 2 ^ (B - ones) := by
    rw [← Nat.pow_add]
    congr 1
    omega
  have hq : v / 2 ^ (B - ones) < 2 ^ ones := by
    apply Nat.div_lt_of_lt_mul
    rw [Nat.mul_comm, ← hsplit]
    exact hv
  have : (v / 2 ^ (B - ones) + 1) * 2 ^ (B - ones) ≤ 2 ^ ones * 2 ^ (B - ones) :=
    Nat.mul_le_mul_right _ hq
  rw [hsplit]
  rw [Nat.add_mul] at this
  omega

theorem masked_add_mask (q P k : Nat) (hk : k < P) : (q * P + k) / P * P = q * P := by
  have hP : 0 < P := by omega
  rw [Nat.add_comm, Nat.add_mul_div_right _ _ hP, Nat.div_eq_of_lt hk, Nat.zero_add]

theorem Host_ok (n : IPNet) (num : Nat) (h : num < n.count) :
    cidr.Host n num =
      .ok (cidr.insertNumIntoIP n.IP num (if n.IP.To4.isSome then 32 else 128)) := by
  unfold cidr.Host
  simp only [IPNet.count] at h
  have : ¬ num > 2 ^ n.hostLen - 1 := by omega
  simp [this]

/-- For a 4-byte address and for a 16-byte address that `To4` rejects, the host
number is inserted at bit 0. -/
theorem insertNum_at_bit_zero (ip : net.IP) (num : Nat)
    (hlen : ip.len = 4 ∨ ip.len = 16) (hfam : ¬ (ip.len = 16 ∧ ip.val / 2 ^ 32 = 0xFFFF)) :
    cidr.insertNumIntoIP ip num (if ip.To4.isSome then 32 else 128)
      = { len := ip.len, val := ip.val ||| num } := by
  rcases hlen with h4 | h16
  · simp [cidr.insertNumIntoIP, IP.To4, IP.bits, h4]
  · have hv : ¬ ip.val / 4294967296 = 65535 := fun hv => hfam ⟨h16, by simpa using hv⟩
    simp [cidr.insertNumIntoIP, IP.To4, IP.bits, h16, hv]

theorem masked_or_eq_add (q h k : Nat) (hk : k < 2 ^ h) : q * 2 ^ h ||| k = q * 2 ^ h + k := by
  rw [Nat.mul_comm]
  exact (Nat.mul_add_lt_is_or hk q).symm

theorem Host_error (n : IPNet) (num : Nat) (h : n.count ≤ num) :
    cidr.Host n num = .error ("prefix of " ++ String.mk (net.uitoa n.ones) ++
      " does not accommodate a host numbered " ++ String.mk (net.uitoa num)) := by
  unfold cidr.Host
  simp only [IPNet.count] at h
  have hP : 0 < 2 ^ n.hostLen := Nat.two_pow_pos _
  have : num > 2 ^ n.hostLen - 1 := by omega
  simp [this]

theorem count_ge_of_hostLen (n : IPNet) (h : 4 ≤ n.hostLen) : 16 ≤ n.count := by
  unfold IPNet.count
  calc 16 = 2 ^ 4 := by norm_num
    _ ≤ 2 ^ n.hostLen := Nat.pow_le_pow_right (by decide) h

theorem count_le_of_hostLen (n : IPNet) (h : n.hostLen < 4) : n.count ≤ 8 := by
  unfold IPNet.count
  calc 2 ^ n.hostLen ≤ 2 ^ 3 := Nat.pow_le_pow_right (by decide) (by omega)
    _ = 8 := by norm_num

/-- The offset 10 on a range that is not IPv4-mapped: for a non-nil install
config whose `ServiceCIDR` parses as the address `ip` in the range `n` with at
least four host bits (so at least 11 addresses), where the network number is
a 4-byte address or a 16-byte address that `To4` rejects, and a default
template that decodes to `cr`, `ClusterDNSDefaultCR` returns `cr` with
`Spec.ClusterIP` set to the text of the address `network + 10`, where the
network address of `n` is `ip` masked by the prefix; that address lies in the
range, is greater than the network address without wrapping around the
address width, and its text holds no `/`. -/
theorem default_cr_cluster_ip (f : Factory) (x : Externals) (ic : InstallConfig)
    (cr : ClusterDNS) (ip : net.IP) (n : IPNet)
    (hcr : x.decodeClusterDNS (x.MustAsset manifests.ClusterDNSDefaultCR) = .ok cr)
    (hparse : ParseCIDR ic.Networking.ServiceCIDR = .ok (ip, n))
    (hbits : 4 ≤ n.hostLen)
    (hfam : ¬ (n.IP.len = 16 ∧ n.IP.val / 2 ^ 32 = 0xFFFF)) :
    11 ≤ n.count ∧
    n.IP = ip.Mask n.ones ∧
    f.ClusterDNSDefaultCR x (some ic) =
      .ok { cr with Spec := { cr.Spec with
        ClusterIP := some (net.IP.String { len := n.IP.len, val := n.IP.val + 10 }) } } ∧
    n.Contains { len := n.IP.len, val := n.IP.val + 10 } = true ∧
    n.IP.val < n.IP.val + 10 ∧
    n.IP.val + 10 < 2 ^ n.IP.bits ∧
    '/' ∉ (net.IP.String { len := n.IP.len, val := n.IP.val + 10 }).data := by
  obtain ⟨hiplen, hval, hmask, hones⟩ := ParseCIDR_wf _ _ _ hparse
  have hcount := count_ge_of_hostLen n hbits
  have hten : 10 < n.count := by omega
  have hlen : n.IP.len = ip.len := by rw [hmask]; rfl
  have hnet : n.IP.val = ip.val / 2 ^ (ip.bits - n.ones) * 2 ^ (ip.bits - n.ones) := by
    rw [hmask]; rfl
  have hten' : 10 < 2 ^ (ip.bits - n.ones) := by
    have : n.hostLen = ip.bits - n.ones := by
      simp only [IPNet.hostLen, IP.bits, hlen]
    simpa [IPNet.count, this] using hten
  have hbound : n.IP.val + 10 < 2 ^ n.IP.bits := by
    have := masked_add_bound ip.val ip.bits n.ones 10 hval hones hten'
    simpa [hnet, IP.bits, hlen] using this
  have hor : n.IP.val ||| 10 = n.IP.val + 10 := by
    rw [hnet]
    exact masked_or_eq_add _ _ 10 hten'
  have hhost : cidr.Host n 10 = .ok { len := n.IP.len, val := n.IP.val + 10 } := by
    rw [Host_ok n 10 hten, insertNum_at_bit_zero n.IP 10 (by rw [hlen]; exact hiplen) hfam, hor]
  refine ⟨by omega, hmask, ?_, ?_, by omega, hbound, IP_String_no_slash _⟩
  · simp only [Factory.ClusterDNSDefaultCR, NewClusterDNS, MustAssetReader, hcr, ofDecode,
      hparse, hhost]
  · have hm := masked_add_mask (ip.val / 2 ^ (ip.bits - n.ones)) (2 ^ (ip.bits - n.ones)) 10 hten'
    have hb' : n.IP.val + 10 < 2 ^ (8 * n.IP.len) := hbound
    simp only [IPNet.Contains, IP.Mask, IP.bits, decide_True, Bool.true_and, hb',
      Bool.and_eq_true, decide_eq_true_eq, true_and]
    rw [hlen, hnet]
    exact hm

/-- C2: for a non-nil install config whose `ServiceCIDR` parses as a range `n`
with fewer than four host bits (so fewer than 11 addresses), and a default
template that decodes, `ClusterDNSDefaultCR` returns an error and no object. -/
theorem default_cr_small_range_fails (f : Factory) (x : Externals) (ic : InstallConfig)
    (cr : ClusterDNS) (ip : net.IP) (n : IPNet)
    (hcr : x.decodeClusterDNS (x.MustAsset manifests.ClusterDNSDefaultCR) = .ok cr)
    (hparse : ParseCIDR ic.Networking.ServiceCIDR = .ok (ip, n))
    (hbits : n.hostLen < 4) :
    n.count < 11 ∧
    f.ClusterDNSDefaultCR x (some ic) =
      .error ("invalid serviceCIDR " ++ n.String ++ ": " ++
        ("prefix of " ++ String.mk (net.uitoa n.ones) ++
          " does not accommodate a host numbered " ++ String.mk (net.uitoa 10))) ∧
    (f.ClusterDNSDefaultCR x (some ic)).obj? = none := by
  have hcount := count_le_of_hostLen n hbits
  have hres : f.ClusterDNSDefaultCR x (some ic) =
      .error ("invalid serviceCIDR " ++ n.String ++ ": " ++
        ("prefix of " ++ String.mk (net.uitoa n.ones) ++
          " does not accommodate a host numbered " ++ String.mk (net.uitoa 10))) := by
    simp only [Factory.ClusterDNSDefaultCR, NewClusterDNS, MustAssetReader, hcr, ofDecode,
      hparse, Host_error n 10 (by omega)]
  exact ⟨by omega, hres, by rw [hres]; rfl⟩

/-! ## Which calls return -/

/-- `DNSService` always returns: an object when the template decodes, else the
decode error. -/
theorem DNSService_returns (f : Factory) (x : Externals) (dns : ClusterDNS) :
    (f.DNSService x dns).returns = true := by
  cases ht : x.decodeService (x.MustAsset manifests.DNSService) with
  | error e => simp [Factory.DNSService, NewService, MustAssetReader, ht, ofDecode, Outcome.returns]
  | ok t => rw [DNSService_of_template f x dns t ht]; rfl

/-- `DNSConfigMap` panics exactly when the template decodes without a data map
and the ClusterDNS has a cluster domain. -/
theorem DNSConfigMap_panics_iff (f : Factory) (x : Externals) (dns : ClusterDNS) :
    (f.DNSConfigMap x dns).returns = false ↔
      ∃ t, x.decodeConfigMap (x.MustAsset manifests.DNSConfigMap) = .ok t ∧
        t.Data = none ∧ dns.Spec.ClusterDomain ≠ none := by
  cases ht : x.decodeConfigMap (x.MustAsset manifests.DNSConfigMap) with
  | error e => simp [Factory.DNSConfigMap, NewConfigMap, MustAssetReader, ht, ofDecode, Outcome.returns]
  | ok t =>
    rw [DNSConfigMap_of_template f x dns t ht]
    cases hd : dns.Spec.ClusterDomain with
    | none => simp [Outcome.returns]
    | some D =>
      have hrep := Replace_eq_splitJoin (t.Data.get "Corefile") "cluster.local" D (by decide)
      simp only [hrep]
      cases hdata : t.Data with
      | none => simp [Outcome.returns, hdata]
      | some es => simp [Outcome.returns, hdata]

/-- `DNSDaemonSet` panics exactly when the template decodes and either has no
selector or its first volume named `config-volume` has no config-map source. -/
theorem DNSDaemonSet_panics_iff (f : Factory) (x : Externals) (dns : ClusterDNS) :
    (f.DNSDaemonSet x dns).returns = false ↔
      ∃ t, x.decodeDaemonSet (x.MustAsset manifests.DNSDaemonSet) = .ok t ∧
        (t.Spec.Selector = none ∨
          ∃ v, t.Spec.Template.Spec.Volumes.find? (fun w => w.Name = "config-volume") = some v ∧
            v.ConfigMap = none) := by
  have hrep : ∀ (name : String) (vols : List Volume),
      repointConfigVolume name vols = none ↔
        ∃ v, vols.find? (fun w => w.Name = "config-volume") = some v ∧ v.ConfigMap = none := by
    intro name vols
    induction vols with
    | nil => simp [repointConfigVolume]
    | cons v vs ih =>
      by_cases hv : v.Name = "config-volume"
      · cases hc : v.ConfigMap <;> simp [repointConfigVolume, hv, hc, List.find?]
      · simp only [repointConfigVolume, hv, if_false, List.find?, decide_False]
        rw [← ih]
        cases repointConfigVolume name vs with
        | none => simp
        | some p => simp
  cases ht : x.decodeDaemonSet (x.MustAsset manifests.DNSDaemonSet) with
  | error e => simp [Factory.DNSDaemonSet, NewDaemonSet, MustAssetReader, ht, ofDecode, Outcome.returns]
  | ok t =>
    rw [DNSDaemonSet_of_template f x dns t ht]
    cases hs : t.Spec.Selector with
    | none => simp [Outcome.returns, hs]
    | some sel =>
      simp only [Except.ok.injEq, exists_eq_left', hs, false_or, reduceCtorEq]
      rw [← hrep ("dns-" ++ dns.ObjectMeta.Name)]
      cases hr : repointConfigVolume ("dns-" ++ dns.ObjectMeta.Name) t.Spec.Template.Spec.Volumes with
      | none => simp [Outcome.returns]
      | some p =>
        obtain ⟨vols, b⟩ := p
        cases b <;> simp [Outcome.returns]

/-- `ClusterDNSDefaultCR` always returns: an object or an error. -/
theorem ClusterDNSDefaultCR_returns (f : Factory) (x : Externals) (ic : Option InstallConfig) :
    (f.ClusterDNSDefaultCR x ic).returns = true := by
  cases ic with
  | none => rfl
  | some ic =>
    simp only [Factory.ClusterDNSDefaultCR, NewClusterDNS, MustAssetReader]
    cases x.decodeClusterDNS (x.MustAsset manifests.ClusterDNSDefaultCR) with
    | error e => rfl
    | ok cr =>
      simp only [ofDecode]
      cases ParseCIDR ic.Networking.ServiceCIDR with
      | error e => rfl
      | ok p =>
        obtain ⟨ip, n⟩ := p
        simp only
        cases cidr.Host n 10 <;> rfl

/-! ## Install config, images, cluster IP and volumes -/

/-- C11: `ClusterDNSDefaultCR` called with a nil install config returns the
error `missing installconfig` and no object, whatever the asset table and the
decoder would do with the default template: the template is not consulted. -/
theorem default_cr_nil_install_config (f : Factory) (x : Externals) :
    f.ClusterDNSDefaultCR x none = .error "missing installconfig" ∧
    (f.ClusterDNSDefaultCR x none).obj? = none ∧
    (f.ClusterDNSDefaultCR x none).err? = some "missing installconfig" :=
  ⟨rfl, rfl, rfl⟩

theorem patchContainer_dns (f : Factory) (dns : ClusterDNS) (c : Container)
    (hc : c.Name = "dns") :
    patchContainer f dns c = { c with Image := f.config.CoreDNSImage } := by
  simp [patchContainer, hc]

theorem patchContainer_resolver_image (f : Factory) (dns : ClusterDNS) (c : Container)
    (hc : c.Name = "dns-node-resolver") :
    (patchContainer f dns c).Image = f.config.OpenshiftCLIImage := by
  have h1 : c.Name ≠ "dns" := by rw [hc]; decide
  unfold patchContainer
  rw [if_neg h1, if_pos hc]
  simp only
  split <;> rfl

theorem patchContainer_other (f : Factory) (dns : ClusterDNS) (c : Container)
    (h1 : c.Name ≠ "dns") (h2 : c.Name ≠ "dns-node-resolver") :
    patchContainer f dns c = c := by
  simp [patchContainer, h1, h2]

/-- C12: when `DNSDaemonSet` succeeds on a template `t`, the rendered containers
are as many as the template's and carry the same names in the same order;
position by position, a container named `dns` has the image `CoreDNSImage` of
the factory's config, a container named `dns-node-resolver` has the image
`OpenshiftCLIImage`, and a container with any other name is the template's
container, equal in every field. -/
theorem containers_images_and_frame (f : Factory) (x : Externals) (dns : ClusterDNS)
    (t ds : DaemonSet)
    (ht : x.decodeDaemonSet (x.MustAsset manifests.DNSDaemonSet) = .ok t)
    (hds : f.DNSDaemonSet x dns = .ok ds) :
    ds.Spec.Template.Spec.Containers.length = t.Spec.Template.Spec.Containers.length ∧
    ds.Spec.Template.Spec.Containers.map (·.Name)
      = t.Spec.Template.Spec.Containers.map (·.Name) ∧
    List.Forall₂
      (fun c c' =>
        (c.Name = "dns" → c'.Image = f.config.CoreDNSImage) ∧
        (c.Name = "dns-node-resolver" → c'.Image = f.config.OpenshiftCLIImage) ∧
        (c.Name ≠ "dns" → c.Name ≠ "dns-node-resolver" → c' = c))
      t.Spec.Template.Spec.Containers ds.Spec.Template.Spec.Containers := by
  obtain ⟨t', sel, vols, ht', -, -, rfl⟩ := DNSDaemonSet_ok_inv f x dns ds hds
  rw [ht] at ht'
  cases ht'
  simp only [renderDaemonSet]
  refine ⟨by simp, ?_, ?_⟩
  · rw [List.map_map]
    apply List.map_congr_left
    intro c _
    exact patchContainer_name f dns c
  · rw [List.forall₂_map_right_iff]
    apply List.forall₂_same.2
    intro c _
    exact ⟨fun hc => by rw [patchContainer_dns f dns c hc],
      fun hc => patchContainer_resolver_image f dns c hc,
      fun h1 h2 => patchContainer_other f dns c h1 h2⟩

/-- C13: for every Service template `t` that decodes, `DNSService` returns a
Service whose `Spec.ClusterIP` is the ClusterDNS's cluster IP when that field
is set, and the template's `Spec.ClusterIP` when it is absent. -/
theorem service_cluster_ip (f : Factory) (x : Externals) (dns : ClusterDNS) (t : Service)
    (ht : x.decodeService (x.MustAsset manifests.DNSService) = .ok t) :
    ∃ s, f.DNSService x dns = .ok s ∧
      (∀ ip, dns.Spec.ClusterIP = some ip → s.Spec.ClusterIP = ip) ∧
      (dns.Spec.ClusterIP = none → s.Spec.ClusterIP = t.Spec.ClusterIP) := by
  refine ⟨_, DNSService_of_template f x dns t ht, ?_, ?_⟩
  · intro ip hip
    simp only [hip]
  · intro hnone
    simp only [hnone]

theorem repoint_true_split (name : String) (vols vols' : List Volume)
    (h : repointConfigVolume name vols = some (vols', true)) :
    ∃ pre v src post, vols = pre ++ v :: post ∧
      (∀ w ∈ pre, w.Name ≠ "config-volume") ∧ v.Name = "config-volume" ∧
      v.ConfigMap = some src ∧
      vols' = pre ++ { v with ConfigMap := some { src with Name := name } } :: post := by
  induction vols generalizing vols' with
  | nil => simp [repointConfigVolume] at h
  | cons v vs ih =>
    by_cases hv : v.Name = "config-volume"
    · simp only [repointConfigVolume, hv, if_true] at h
      split at h
      · simp at h
      · rename_i src hsrc
        simp only [Option.some.injEq, Prod.mk.injEq, and_true] at h
        subst h
        exact ⟨[], v, src, vs, rfl, by simp, hv, hsrc, by simp [hv]⟩
    · simp only [repointConfigVolume, hv, if_false] at h
      split at h
      · simp at h
      · rename_i vs' found heq
        simp only [Option.some.injEq, Prod.mk.injEq] at h
        obtain ⟨rfl, rfl⟩ := h
        obtain ⟨pre, w, src, post, hvs, hpre, hw, hsrc, hvs'⟩ := ih vs' heq
        refine ⟨v :: pre, w, src, post, by rw [hvs]; rfl, ?_, hw, hsrc, by rw [hvs']; rfl⟩
        intro u hu
        rcases List.mem_cons.1 hu with rfl | hu
        · exact hv
        · exact hpre u hu

/-- C16: when `DNSDaemonSet` succeeds on a template `t`, the rendered volume list
has the length of the template's and differs from it in one place only: the
template's volumes are `pre ++ v :: post` where no volume of `pre` is named
`config-volume` and `v` is (so `v` is the first of that name), and the
rendered volumes are `pre ++ v' :: post` where `v'` is `v` with the name of
its config-map reference set to `"dns-" + d.Name`. Every volume of `post`,
also one named `config-volume`, is the template's. -/
theorem volumes_frame (f : Factory) (x : Externals) (dns : ClusterDNS) (t ds : DaemonSet)
    (ht : x.decodeDaemonSet (x.MustAsset manifests.DNSDaemonSet) = .ok t)
    (hds : f.DNSDaemonSet x dns = .ok ds) :
    ds.Spec.Template.Spec.Volumes.length = t.Spec.Template.Spec.Volumes.length ∧
    ∃ pre v src post,
      t.Spec.Template.Spec.Volumes = pre ++ v :: post ∧
      (∀ w ∈ pre, w.Name ≠ "config-volume") ∧ v.Name = "config-volume" ∧
      v.ConfigMap = some src ∧
      ds.Spec.Template.Spec.Volumes =
        pre ++ { v with ConfigMap := some { src with Name := "dns-" ++ dns.ObjectMeta.Name } }
          :: post := by
  obtain ⟨t', sel, vols, ht', -, hvols, rfl⟩ := DNSDaemonSet_ok_inv f x dns ds hds
  rw [ht] at ht'
  cases ht'
  obtain ⟨pre, v, src, post, hsplit, hpre, hv, hsrc, hvols'⟩ := repoint_true_split _ _ _ hvols
  refine ⟨?_, pre, v, src, post, hsplit, hpre, hv, hsrc, hvols'⟩
  simp only [renderDaemonSet, hvols', hsplit, List.length_append, List.length_cons]

/-! ## Errors of the address range -/

theorem ParseCIDR_error_text (s : String) (e : String) (h : ParseCIDR s = .error e) :
    e = parseError s := by
  unfold ParseCIDR at h
  simp only at h
  split at h
  · cases h; rfl
  · split at h
    · split at h
      · cases h; rfl
      · cases h
    · cases h; rfl

/-- C14: for a non-nil install config whose `ServiceCIDR` does not parse as a
CIDR and a default template that decodes, `ClusterDNSDefaultCR` returns no
object and an error whose message contains the `ServiceCIDR` text (it ends
with it). -/
theorem invalid_cidr_error_names_input (f : Factory) (x : Externals) (ic : InstallConfig)
    (cr : ClusterDNS) (e : String)
    (hcr : x.decodeClusterDNS (x.MustAsset manifests.ClusterDNSDefaultCR) = .ok cr)
    (hparse : ParseCIDR ic.Networking.ServiceCIDR = .error e) :
    (f.ClusterDNSDefaultCR x (some ic)).obj? = none ∧
    ∃ msg, f.ClusterDNSDefaultCR x (some ic) = .error msg ∧
      msg = "invalid serviceCIDR " ++ x.Quote ic.Networking.ServiceCIDR ++ ": " ++
        ("invalid CIDR address: " ++ ic.Networking.ServiceCIDR) ∧
      ic.Networking.ServiceCIDR.data <:+: msg.data := by
  have he := ParseCIDR_error_text _ _ hparse
  subst he
  have hres : f.ClusterDNSDefaultCR x (some ic) =
      .error ("invalid serviceCIDR " ++ x.Quote ic.Networking.ServiceCIDR ++ ": " ++
        ("invalid CIDR address: " ++ ic.Networking.ServiceCIDR)) := by
    simp only [Factory.ClusterDNSDefaultCR, NewClusterDNS, MustAssetReader, hcr, ofDecode,
      hparse, parseError]
  refine ⟨by rw [hres]; rfl, _, hres, rfl, ?_⟩
  simp only [String.data_append]
  exact ((List.suffix_append _ _).trans (List.suffix_append _ _)).isInfix


/-! ## Selectors and labels across the rendered objects -/

/-- C15, as amended: when `DNSDaemonSet` and `DNSService` both succeed on
templates `tD` and `tS`, the selector of the rendered Service and the pod
template labels of the rendered DaemonSet hold the same pair for the key
`dns`, and every key/value pair of the Service's selector is a pair of the
DaemonSet's pod template labels exactly when every pair of the Service
template's selector with a key other than `dns` is a pair of the DaemonSet
template's pod template labels. -/
theorem service_selector_matches_pods_iff (f : Factory) (x : Externals) (dns : ClusterDNS)
    (tD ds : DaemonSet) (tS s : Service)
    (htD : x.decodeDaemonSet (x.MustAsset manifests.DNSDaemonSet) = .ok tD)
    (htS : x.decodeService (x.MustAsset manifests.DNSService) = .ok tS)
    (hds : f.DNSDaemonSet x dns = .ok ds) (hs : f.DNSService x dns = .ok s) :
    (s.Spec.Selector.lookup "dns" = some ("dns-" ++ dns.ObjectMeta.Name) ∧
      ds.Spec.Template.ObjectMeta.Labels.lookup "dns" = some ("dns-" ++ dns.ObjectMeta.Name)) ∧
    ((∀ k v, s.Spec.Selector.lookup k = some v →
        ds.Spec.Template.ObjectMeta.Labels.lookup k = some v) ↔
      (∀ k v, k ≠ "dns" → tS.Spec.Selector.lookup k = some v →
        tD.Spec.Template.ObjectMeta.Labels.lookup k = some v)) := by
  obtain ⟨t, sel, vols, ht, -, -, rfl⟩ := DNSDaemonSet_ok_inv f x dns ds hds
  rw [htD] at ht
  cases ht
  obtain ⟨t', ht', rfl⟩ := DNSService_ok_inv f x dns s hs
  rw [htS] at ht'
  cases ht'
  have hsel : ∀ k, GoMap.lookup (some ((tS.Spec.Selector.orEmpty).set "dns"
      ("dns-" ++ dns.ObjectMeta.Name))) k
      = if k = "dns" then some ("dns-" ++ dns.ObjectMeta.Name) else tS.Spec.Selector.lookup k := by
    intro k
    rw [GoMap.lookup_some_set, GoMap.lookup_orEmpty]
  have hlab : ∀ k, GoMap.lookup (some ((tD.Spec.Template.ObjectMeta.Labels.orEmpty).set "dns"
      ("dns-" ++ dns.ObjectMeta.Name))) k
      = if k = "dns" then some ("dns-" ++ dns.ObjectMeta.Name)
        else tD.Spec.Template.ObjectMeta.Labels.lookup k := by
    intro k
    rw [GoMap.lookup_some_set, GoMap.lookup_orEmpty]
  simp only [renderDaemonSet]
  refine ⟨⟨by rw [hsel]; simp, by rw [hlab]; simp⟩, ?_, ?_⟩
  · intro h k v hk hv
    have := h k v (by rw [hsel, if_neg hk]; exact hv)
    rw [hlab, if_neg hk] at this
    exact this
  · intro h k v hv
    rw [hsel] at hv
    rw [hlab]
    by_cases hk : k = "dns"
    · rw [if_pos hk] at hv ⊢
      exact hv
    · rw [if_neg hk] at hv ⊢
      exact h k v hk hv

/-! ## Data of the rendered ConfigMap -/

theorem Replace_same (t old : String) : strings.Replace t old old (-1) = some t := by
  simp [strings.Replace, strings.replaceChars]

theorem Entries.lookup_some_of_set_same (es : Entries) (k v : String)
    (h : es.lookup k = some v) : es.set k v = es := by
  induction es with
  | nil => simp [List.lookup] at h
  | cons p rest ih =>
    obtain ⟨a, b⟩ := p
    rw [lookup_cons_ite] at h
    by_cases ha : k = a
    · rw [if_pos ha] at h
      cases h
      simp [Entries.set, ha]
    · rw [if_neg ha] at h
      have ha' : ¬ a = k := fun e => ha e.symm
      simp [Entries.set, ha', ih h]

/-- C17: for every ConfigMap template `t` that decodes and every ClusterDNS:
when the cluster domain is absent `DNSConfigMap` returns a ConfigMap whose
data map is the template's; and whenever `DNSConfigMap` returns a ConfigMap,
every key other than `Corefile` reads in its data as in the template's, and
for the domain `cluster.local` the `Corefile` text reads as in the
template's (an entry the template has is kept as it is). With a data map in
the template the call does return. -/
theorem configmap_data_frame (f : Factory) (x : Externals) (dns : ClusterDNS) (t : ConfigMap)
    (ht : x.decodeConfigMap (x.MustAsset manifests.DNSConfigMap) = .ok t) :
    (dns.Spec.ClusterDomain = none →
      ∃ cm, f.DNSConfigMap x dns = .ok cm ∧ cm.Data = t.Data) ∧
    (t.Data ≠ none → ∃ cm, f.DNSConfigMap x dns = .ok cm) ∧
    (∀ cm, f.DNSConfigMap x dns = .ok cm →
      (∀ k, k ≠ "Corefile" → cm.Data.lookup k = t.Data.lookup k) ∧
      (dns.Spec.ClusterDomain = some "cluster.local" →
        cm.Data.get "Corefile" = t.Data.get "Corefile" ∧
        (∀ text, t.Data.lookup "Corefile" = some text →
          cm.Data.lookup "Corefile" = some text ∧ cm.Data = t.Data))) := by
  rw [DNSConfigMap_of_template f x dns t ht]
  refine ⟨?_, ?_, ?_⟩
  · intro hnone
    rw [hnone]
    exact ⟨_, rfl, rfl⟩
  · intro hdata
    cases hd : dns.Spec.ClusterDomain with
    | none => exact ⟨_, rfl⟩
    | some D =>
      have hrep := Replace_eq_splitJoin (t.Data.get "Corefile") "cluster.local" D (by decide)
      simp only [hrep]
      cases hes : t.Data with
      | none => exact absurd hes hdata
      | some es => exact ⟨_, rfl⟩
  · intro cm hcm
    cases hd : dns.Spec.ClusterDomain with
    | none =>
      rw [hd] at hcm
      cases hcm
      exact ⟨fun k _ => rfl, fun h => by cases h⟩
    | some D =>
      rw [hd] at hcm
      have hrep := Replace_eq_splitJoin (t.Data.get "Corefile") "cluster.local" D (by decide)
      simp only [hrep] at hcm
      cases hes : t.Data with
      | none => simp [hes] at hcm
      | some es =>
        simp only [hes, Outcome.ok.injEq] at hcm
        subst hcm
        refine ⟨?_, ?_⟩
        · intro k hk
          simp [GoMap.lookup, Entries.lookup_set, hk]
        · intro hD
          cases hD
          have hsame := Replace_same (GoMap.get (some es) "Corefile") "cluster.local"
          rw [hes] at hrep
          rw [hrep] at hsame
          have heq := Option.some.inj hsame
          refine ⟨?_, ?_⟩
          · rw [heq]
            simp [GoMap.get, GoMap.lookup_some_set]
          · intro text htext
            have hget : GoMap.get (some es) "Corefile" = text := lookup_get _ _ _ htext
            rw [heq, hget]
            have hl : es.lookup "Corefile" = some text := htext
            exact ⟨by simp [GoMap.lookup_some_set],
              by rw [Entries.lookup_some_of_set_same es _ _ hl]⟩

/-! ## No occurrence is left or created by the replacement -/

theorem no_occurrence_of_Index_none (old s : List Char) (h : strings.Index s old = none) :
    ¬ old <:+: s := by
  induction s with
  | nil =>
    simp only [strings.Index] at h
    split at h
    · cases h
    · rename_i hne
      intro hin
      exact hne (List.eq_nil_of_infix_nil hin)
  | cons c cs ih =>
    simp only [strings.Index] at h
    split at h
    · cases h
    · rename_i hp
      have hcs : strings.Index cs old = none := by
        cases hi : strings.Index cs old with
        | none => rfl
        | some j => simp [hi] at h
      intro hin
      rcases List.infix_cons_iff.1 hin with hpre | hin'
      · exact hp (List.isPrefixOf_iff_prefix.2 hpre)
      · exact ih hcs hin'

theorem no_occurrence_before_Index (old : List Char) (hold : old ≠ []) (s : List Char) (i : Nat)
    (h : strings.Index s old = some i) : ¬ old <:+: s.take i := by
  induction s generalizing i with
  | nil => simp [strings.Index, hold] at h
  | cons c cs ih =>
    simp only [strings.Index] at h
    split at h
    · cases h
      intro hin
      exact hold (List.eq_nil_of_infix_nil (by simpa using hin))
    · rename_i hp
      cases hi : strings.Index cs old with
      | none => simp [hi] at h
      | some j =>
        simp only [hi, Option.map_some', Option.some.injEq] at h
        subst h
        intro hin
        rw [List.take_succ_cons] at hin
        rcases List.infix_cons_iff.1 hin with hpre | hin'
        · have : old <+: c :: cs := hpre.trans ((List.prefix_cons_inj c).2 (List.take_prefix j cs))
          exact hp (List.isPrefixOf_iff_prefix.2 this)
        · exact ih j hi hin'

theorem pieces_no_occurrence (old : List Char) (hold : old ≠ []) (n : Nat) :
    ∀ s : List Char, s.length ≤ n → ∀ p ∈ splitScan old s 0 [], ¬ old <:+: p := by
  induction n with
  | zero =>
    intro s hs p hp
    have : s = [] := List.length_eq_zero.1 (Nat.le_zero.1 hs)
    subst this
    simp only [splitScan, List.mem_singleton] at hp
    subst hp
    intro hin
    exact hold (List.eq_nil_of_infix_nil hin)
  | succ n ih =>
    intro s hs p hp
    cases hi : strings.Index s old with
    | none =>
      rw [splitScan_of_Index_none old s [] hi] at hp
      simp only [List.nil_append, List.mem_singleton] at hp
      subst hp
      exact no_occurrence_of_Index_none old _ hi
    | some i =>
      have hb := Index_bound old s i hi
      have hpos : 0 < old.length := List.length_pos.2 hold
      rw [splitScan_of_Index_some old hold s [] i hi] at hp
      rcases List.mem_cons.1 hp with rfl | hp
      · simpa using no_occurrence_before_Index old hold s i hi
      · exact ih (s.drop (i + old.length)) (by simp only [List.length_drop]; omega) p hp

/-- An occurrence of `old` in `p ++ new ++ rest` lies in `p` or in `rest` when
the first character of `new` does not occur in `old` and the first character
of `old` does not occur in `new`. -/
theorem occurrence_of_append_sep (old new p rest : List Char) (c f : Char)
    (old' new' : List Char) (hold : old = c :: old') (hnew : new = f :: new')
    (hf : f ∉ old) (hc : c ∉ new) (h : old <:+: p ++ new ++ rest) :
    old <:+: p ∨ old <:+: rest := by
  obtain ⟨a, b, hab⟩ := h
  rw [List.append_assoc, List.append_assoc] at hab
  rcases List.append_eq_append_iff.1 hab with ⟨a', ha, hrest⟩ | ⟨c', hp, hrest⟩
  · -- `p = a ++ a'`, and `old ++ b = a' ++ (new ++ rest)`
    rcases List.append_eq_append_iff.1 hrest with ⟨y, hy, hb⟩ | ⟨y, hy, hb⟩
    · -- `a' = old ++ y`
      left
      exact ⟨a, y, by rw [ha, hy, List.append_assoc]⟩
    · -- `old = a' ++ y`, and `new ++ rest = y ++ b`
      cases y with
      | nil =>
        left
        rw [List.append_nil] at hy
        exact ⟨a, [], by rw [ha, hy, List.append_nil]⟩
      | cons h y' =>
        exfalso
        rw [hnew] at hb
        simp only [List.cons_append, List.cons.injEq] at hb
        apply hf
        rw [hy, hb.1]
        simp
  · -- `a = p ++ c'`, and `new ++ rest = c' ++ (old ++ b)`
    rcases List.append_eq_append_iff.1 hrest with ⟨y, hy, hb⟩ | ⟨y, hy, hb⟩
    · -- `c' = new ++ y`
      right
      exact ⟨y, b, by rw [hb, List.append_assoc]⟩
    · -- `new = c' ++ y`, and `old ++ b = y ++ rest`
      cases y with
      | nil =>
        right
        rw [List.nil_append] at hb
        exact ⟨[], b, by rw [List.nil_append, hb]⟩
      | cons h y' =>
        exfalso
        rw [hold] at hb
        simp only [List.cons_append, List.cons.injEq] at hb
        apply hc
        rw [hy, hb.1]
        simp

theorem intercalate_no_occurrence (old new : List Char) (c f : Char)
    (old' new' : List Char) (hold : old = c :: old') (hnew : new = f :: new')
    (hf : f ∉ old) (hc : c ∉ new) (ps : List (List Char))
    (hps : ∀ p ∈ ps, ¬ old <:+: p) : ¬ old <:+: List.intercalate new ps := by
  induction ps with
  | nil =>
    intro hin
    have : old = [] := List.eq_nil_of_infix_nil (by simpa [List.intercalate] using hin)
    rw [hold] at this
    cases this
  | cons p ps ih =>
    cases ps with
    | nil =>
      simpa [List.intercalate] using hps p (List.mem_cons_self _ _)
    | cons q qs =>
      rw [intercalate_cons_cons]
      intro hin
      rcases occurrence_of_append_sep old new p _ c f old' new' hold hnew hf hc hin with h | h
      · exact hps p (List.mem_cons_self _ _) h
      · exact ih (fun r hr => hps r (List.mem_cons_of_mem _ hr)) h

theorem splitJoin_no_occurrence (t old new : String) (c f : Char) (old' new' : List Char)
    (hold : old.data = c :: old') (hnew : new.data = f :: new')
    (hf : f ∉ old.data) (hc : c ∉ new.data) :
    ¬ old.data <:+: (splitJoin t old new).data := by
  have hne : old.data ≠ [] := by rw [hold]; simp
  simp only [splitJoin, piecesOf]
  exact intercalate_no_occurrence old.data new.data c f old' new' hold hnew hf hc _
    (pieces_no_occurrence old.data hne t.data.length t.data (Nat.le_refl _))

theorem DNSConfigMap_corefile_text (f : Factory) (x : Externals) (dns : ClusterDNS)
    (t : ConfigMap) (text D : String)
    (ht : x.decodeConfigMap (x.MustAsset manifests.DNSConfigMap) = .ok t)
    (htext : t.Data.lookup "Corefile" = some text)
    (hD : dns.Spec.ClusterDomain = some D) :
    ∃ cm, f.DNSConfigMap x dns = .ok cm ∧
      cm.Data.lookup "Corefile" = some (splitJoin text "cluster.local" D) := by
  rw [DNSConfigMap_of_template f x dns t ht, hD]
  have hget := lookup_get _ _ _ htext
  have hrep := Replace_eq_splitJoin text "cluster.local" D (by decide)
  cases hdata : t.Data with
  | none => simp [hdata, GoMap.lookup] at htext
  | some es =>
    rw [hdata] at hget
    simp only [hget, hrep]
    exact ⟨_, rfl, by simp [GoMap.lookup_some_set]⟩

/-- C18: for a ConfigMap template whose data has a `Corefile` entry, with any
text, and a ClusterDNS with cluster domain `foo.bar`, `DNSConfigMap` returns a
ConfigMap whose `Corefile` text has no occurrence of `cluster.local`. For
another domain without an occurrence of `cluster.local` this fails: with the
empty domain and the text `clustercluster.local.local` the rendered text is
`cluster.local`. -/
theorem corefile_placeholder_gone_for_foo_bar (f : Factory) (x : Externals) (dns : ClusterDNS)
    (t : ConfigMap) (text : String)
    (ht : x.decodeConfigMap (x.MustAsset manifests.DNSConfigMap) = .ok t)
    (htext : t.Data.lookup "Corefile" = some text)
    (hD : dns.Spec.ClusterDomain = some "foo.bar") :
    (∃ cm rendered, f.DNSConfigMap x dns = .ok cm ∧
      cm.Data.lookup "Corefile" = some rendered ∧
      ¬ "cluster.local".data <:+: rendered.data) ∧
    (¬ "cluster.local".data <:+: "".data ∧
      exampleConfigMapNested.Data.lookup "Corefile" = some "clustercluster.local.local" ∧
      exampleClusterDNSEmptyDomain.Spec.ClusterDomain = some "" ∧
      ∃ cm rendered,
        exampleFactory.DNSConfigMap (exampleExternalsWithConfigMap exampleConfigMapNested)
          exampleClusterDNSEmptyDomain = .ok cm ∧
        cm.Data.lookup "Corefile" = some rendered ∧
        "cluster.local".data <:+: rendered.data) := by
  refine ⟨?_, ?_, by decide, by decide, ?_⟩
  · obtain ⟨cm, hcm, hlook⟩ := DNSConfigMap_corefile_text f x dns t text "foo.bar" ht htext hD
    refine ⟨cm, _, hcm, hlook, ?_⟩
    exact splitJoin_no_occurrence text "cluster.local" "foo.bar" 'c' 'f' "luster.local".data
      "oo.bar".data (by decide) (by decide) (by decide) (by decide)
  · intro hin
    have := List.eq_nil_of_infix_nil hin
    exact absurd this (by decide)
  · refine ⟨{ exampleConfigMapNested with
        ObjectMeta := { exampleConfigMapNested.ObjectMeta with Name := "dns-default" }
        Data := some [("Corefile", "cluster.local")] }, "cluster.local", by decide, by decide, ?_⟩
    exact List.infix_refl _

/-! ## Evaluations on the sample manifests -/

theorem rendered_names_witness :
    (exampleFactory.DNSConfigMap exampleExternals exampleClusterDNS = .ok exampleRenderedConfigMap ∧
      exampleRenderedConfigMap.ObjectMeta.Name = "dns-" ++ exampleClusterDNS.ObjectMeta.Name) ∧
    (exampleFactory.DNSDaemonSet exampleExternals exampleClusterDNS = .ok exampleRenderedDaemonSet ∧
      exampleRenderedDaemonSet.ObjectMeta.Name = "dns-" ++ exampleClusterDNS.ObjectMeta.Name) ∧
    (exampleFactory.DNSService exampleExternals exampleClusterDNS = .ok exampleRenderedService ∧
      exampleRenderedService.ObjectMeta.Name = "dns-" ++ exampleClusterDNS.ObjectMeta.Name) :=
  ⟨⟨by decide, (rendered_names_are_dns_prefixed exampleFactory exampleExternals exampleClusterDNS).1
      exampleRenderedConfigMap (by decide)⟩,
   ⟨by decide, (rendered_names_are_dns_prefixed exampleFactory exampleExternals exampleClusterDNS).2.1
      exampleRenderedDaemonSet (by decide)⟩,
   ⟨by decide, (rendered_names_are_dns_prefixed exampleFactory exampleExternals exampleClusterDNS).2.2
      exampleRenderedService (by decide)⟩⟩

theorem service_and_daemonset_share_dns_label_witness :
    exampleFactory.DNSDaemonSet exampleExternals exampleClusterDNS = .ok exampleRenderedDaemonSet ∧
    exampleFactory.DNSService exampleExternals exampleClusterDNS = .ok exampleRenderedService ∧
    exampleServiceTemplate.ObjectMeta.Labels = none ∧
    exampleServiceTemplate.Spec.Selector.lookup "dns" = some "stale" ∧
    exampleRenderedService.ObjectMeta.Labels.lookup "dns" = some "dns-default" ∧
    exampleRenderedService.Spec.Selector.lookup "dns" = some "dns-default" ∧
    exampleRenderedDaemonSet.Spec.Template.ObjectMeta.Labels.lookup "dns" = some "dns-default" :=
  ⟨by decide, by decide, rfl, by decide,
   service_and_daemonset_share_dns_label exampleFactory exampleExternals exampleClusterDNS
     exampleRenderedDaemonSet exampleRenderedService (by decide) (by decide)⟩

theorem daemonset_selector_matches_template_labels_witness :
    exampleExternals.decodeDaemonSet (exampleExternals.MustAsset manifests.DNSDaemonSet)
      = .ok exampleDaemonSetTemplate ∧
    exampleFactory.DNSDaemonSet exampleExternals exampleClusterDNS = .ok exampleRenderedDaemonSet ∧
    exampleRenderedDaemonSet.ObjectMeta.Name = "dns-" ++ exampleClusterDNS.ObjectMeta.Name ∧
    exampleRenderedDaemonSet.matchLabels.lookup "dns" = some exampleRenderedDaemonSet.ObjectMeta.Name ∧
    exampleRenderedDaemonSet.Spec.Template.ObjectMeta.Labels.lookup "dns"
      = some exampleRenderedDaemonSet.ObjectMeta.Name ∧
    (∀ k, k ≠ "dns" →
      exampleRenderedDaemonSet.matchLabels.lookup k = exampleDaemonSetTemplate.matchLabels.lookup k ∧
      exampleRenderedDaemonSet.Spec.Template.ObjectMeta.Labels.lookup k
        = exampleDaemonSetTemplate.Spec.Template.ObjectMeta.Labels.lookup k) :=
  ⟨by decide, by decide,
   daemonset_selector_matches_template_labels exampleFactory exampleExternals exampleClusterDNS
     exampleDaemonSetTemplate exampleRenderedDaemonSet (by decide) (by decide)⟩

/-- C6, at a template that decodes, has no selector and declares no volume: the
call does not return the error of the missing volume, it panics on the nil
selector before the volumes are looked at. -/
theorem daemonset_without_selector_panics :
    (∀ v ∈ exampleDaemonSetNoSelector.Spec.Template.Spec.Volumes, v.Name ≠ "config-volume") ∧
    exampleFactory.DNSDaemonSet (exampleExternalsWithDaemonSet exampleDaemonSetNoSelector)
      exampleClusterDNS = .panic nilDeref ∧
    exampleFactory.DNSDaemonSet (exampleExternalsWithDaemonSet exampleDaemonSetNoVolume)
      exampleClusterDNS = .error "volume 'config-volume' not found" := by
  refine ⟨by decide, by decide, by decide⟩

theorem config_volume_refers_to_rendered_configmap_witness :
    exampleFactory.DNSConfigMap exampleExternals exampleClusterDNS = .ok exampleRenderedConfigMap ∧
    exampleFactory.DNSDaemonSet exampleExternals exampleClusterDNS = .ok exampleRenderedDaemonSet ∧
    ∃ v src, exampleRenderedDaemonSet.Spec.Template.Spec.Volumes.find?
        (fun w => w.Name = "config-volume") = some v ∧
      v.ConfigMap = some src ∧ src.Name = exampleRenderedConfigMap.ObjectMeta.Name ∧
      exampleRenderedConfigMap.ObjectMeta.Name = "dns-" ++ exampleClusterDNS.ObjectMeta.Name :=
  ⟨by decide, by decide,
   config_volume_refers_to_rendered_configmap exampleFactory exampleExternals exampleClusterDNS
     exampleRenderedConfigMap exampleRenderedDaemonSet (by decide) (by decide)⟩

theorem node_resolver_env_witness :
    exampleExternals.decodeDaemonSet (exampleExternals.MustAsset manifests.DNSDaemonSet)
      = .ok exampleDaemonSetTemplate ∧
    exampleFactory.DNSDaemonSet exampleExternals exampleClusterDNS = .ok exampleRenderedDaemonSet ∧
    exampleRenderedDaemonSet.Spec.Template.Spec.Containers.map (fun c => (c.Name, c.Env)) =
      [("dns", []),
       ("dns-node-resolver",
         [{ Name := "SERVICES", Value := "image-registry.openshift-image-registry.svc" },
          { Name := "NAMESERVER", Value := "10.0.0.10" },
          { Name := "CLUSTER_DOMAIN", Value := "example.local" }]),
       ("metrics", [])] ∧
    List.Forall₂
      (fun c c' => c'.Name = c.Name ∧ (c.Name = "dns-node-resolver" →
        (∀ ip domain, exampleClusterDNS.Spec.ClusterIP = some ip →
          exampleClusterDNS.Spec.ClusterDomain = some domain →
          c'.Env = c.Env ++ [{ Name := "NAMESERVER", Value := ip },
                             { Name := "CLUSTER_DOMAIN", Value := domain }]) ∧
        ((exampleClusterDNS.Spec.ClusterIP = none ∨ exampleClusterDNS.Spec.ClusterDomain = none) →
          c'.Env = c.Env)))
      exampleDaemonSetTemplate.Spec.Template.Spec.Containers
      exampleRenderedDaemonSet.Spec.Template.Spec.Containers :=
  ⟨by decide, by decide, by decide,
   node_resolver_env exampleFactory exampleExternals exampleClusterDNS
     exampleDaemonSetTemplate exampleRenderedDaemonSet (by decide) (by decide)⟩

/-- C10, at three inputs with a template that decodes: `DNSConfigMap` on a
template without a data map and a ClusterDNS with a cluster domain, and
`DNSDaemonSet` on a template without a selector and on a template whose
`config-volume` is not config-map-backed. Each call panics: it returns neither
an object nor an error. -/
theorem factory_methods_panic_on_nil_fields :
    exampleFactory.DNSConfigMap (exampleExternalsWithConfigMap exampleConfigMapNoData)
      exampleClusterDNS = .panic nilMapWrite ∧
    exampleFactory.DNSDaemonSet (exampleExternalsWithDaemonSet exampleDaemonSetNoSelector)
      exampleClusterDNS = .panic nilDeref ∧
    exampleFactory.DNSDaemonSet (exampleExternalsWithDaemonSet exampleDaemonSetHostPathVolume)
      exampleClusterDNS = .panic nilDeref := by
  refine ⟨by decide, by decide, by decide⟩

theorem default_cr_cluster_ip_witness :
    exampleExternals.decodeClusterDNS (exampleExternals.MustAsset manifests.ClusterDNSDefaultCR)
      = .ok exampleDefaultCR ∧
    ParseCIDR exampleInstallConfig.Networking.ServiceCIDR
      = .ok ({ len := 4, val := 2887647237 }, { IP := { len := 4, val := 2887647232 }, ones := 16 }) ∧
    exampleFactory.ClusterDNSDefaultCR exampleExternals (some exampleInstallConfig) =
      .ok { exampleDefaultCR with
        Spec := { exampleDefaultCR.Spec with ClusterIP := some "172.30.0.10" } } ∧
    exampleFactory.ClusterDNSDefaultCR exampleExternals (some exampleInstallConfigV6) =
      .ok { exampleDefaultCR with
        Spec := { exampleDefaultCR.Spec with ClusterIP := some "fd02::a" } } ∧
    '/' ∉ (net.IP.String { len := 4, val := 2887647232 + 10 }).data :=
  ⟨by decide, by decide,
   (default_cr_cluster_ip exampleFactory exampleExternals exampleInstallConfig exampleDefaultCR
      { len := 4, val := 2887647237 } { IP := { len := 4, val := 2887647232 }, ones := 16 }
      (by decide) (by decide) (by decide) (by decide)).2.2.1.trans (by decide),
   by decide,
   (default_cr_cluster_ip exampleFactory exampleExternals exampleInstallConfig exampleDefaultCR
      { len := 4, val := 2887647237 } { IP := { len := 4, val := 2887647232 }, ones := 16 }
      (by decide) (by decide) (by decide) (by decide)).2.2.2.2.2.2⟩

theorem default_cr_small_range_fails_witness :
    exampleExternals.decodeClusterDNS (exampleExternals.MustAsset manifests.ClusterDNSDefaultCR)
      = .ok exampleDefaultCR ∧
    ParseCIDR exampleSmallInstallConfig.Networking.ServiceCIDR
      = .ok ({ len := 4, val := 2887647232 }, { IP := { len := 4, val := 2887647232 }, ones := 29 }) ∧
    exampleFactory.ClusterDNSDefaultCR exampleExternals (some exampleSmallInstallConfig) =
      .error "invalid serviceCIDR 172.30.0.0/29: prefix of 29 does not accommodate a host numbered 10" ∧
    (exampleFactory.ClusterDNSDefaultCR exampleExternals (some exampleSmallInstallConfig)).obj?
      = none :=
  ⟨by decide, by decide,
   (default_cr_small_range_fails exampleFactory exampleExternals exampleSmallInstallConfig
      exampleDefaultCR { len := 4, val := 2887647232 }
      { IP := { len := 4, val := 2887647232 }, ones := 29 }
      (by decide) (by decide) (by decide)).2.1.trans (by decide),
   (default_cr_small_range_fails exampleFactory exampleExternals exampleSmallInstallConfig
      exampleDefaultCR { len := 4, val := 2887647232 }
      { IP := { len := 4, val := 2887647232 }, ones := 29 }
      (by decide) (by decide) (by decide)).2.2⟩

theorem containers_images_and_frame_witness :
    exampleExternals.decodeDaemonSet (exampleExternals.MustAsset manifests.DNSDaemonSet)
      = .ok exampleDaemonSetTemplate ∧
    exampleFactory.DNSDaemonSet exampleExternals exampleClusterDNS = .ok exampleRenderedDaemonSet ∧
    exampleRenderedDaemonSet.Spec.Template.Spec.Containers.map (fun c => (c.Name, c.Image)) =
      [("dns", "openshift/origin-coredns:v4.0"),
       ("dns-node-resolver", "openshift/origin-cli:v4.0"),
       ("metrics", "prom/exporter:1.0")] ∧
    exampleRenderedDaemonSet.Spec.Template.Spec.Containers.length
      = exampleDaemonSetTemplate.Spec.Template.Spec.Containers.length ∧
    exampleRenderedDaemonSet.Spec.Template.Spec.Containers.map (·.Name)
      = exampleDaemonSetTemplate.Spec.Template.Spec.Containers.map (·.Name) ∧
    List.Forall₂
      (fun c c' =>
        (c.Name = "dns" → c'.Image = exampleFactory.config.CoreDNSImage) ∧
        (c.Name = "dns-node-resolver" → c'.Image = exampleFactory.config.OpenshiftCLIImage) ∧
        (c.Name ≠ "dns" → c.Name ≠ "dns-node-resolver" → c' = c))
      exampleDaemonSetTemplate.Spec.Template.Spec.Containers
      exampleRenderedDaemonSet.Spec.Template.Spec.Containers :=
  ⟨by decide, by decide, by decide,
   containers_images_and_frame exampleFactory exampleExternals exampleClusterDNS
     exampleDaemonSetTemplate exampleRenderedDaemonSet (by decide) (by decide)⟩

theorem service_cluster_ip_witness :
    (exampleExternalsWithService exampleServiceExtraSelector).decodeService
      ((exampleExternalsWithService exampleServiceExtraSelector).MustAsset manifests.DNSService)
      = .ok exampleServiceExtraSelector ∧
    (∃ s, exampleFactory.DNSService (exampleExternalsWithService exampleServiceExtraSelector)
        exampleClusterDNS = .ok s ∧
      (∀ ip, exampleClusterDNS.Spec.ClusterIP = some ip → s.Spec.ClusterIP = ip) ∧
      (exampleClusterDNS.Spec.ClusterIP = none →
        s.Spec.ClusterIP = exampleServiceExtraSelector.Spec.ClusterIP)) ∧
    ((exampleFactory.DNSService (exampleExternalsWithService exampleServiceExtraSelector)
        exampleClusterDNS).getD exampleServiceTemplate).Spec.ClusterIP = "10.0.0.10" ∧
    ((exampleFactory.DNSService (exampleExternalsWithService exampleServiceExtraSelector)
        exampleClusterDNSNoIP).getD exampleServiceTemplate).Spec.ClusterIP = "172.30.0.2" :=
  ⟨by decide,
   service_cluster_ip exampleFactory (exampleExternalsWithService exampleServiceExtraSelector)
     exampleClusterDNS exampleServiceExtraSelector (by decide),
   by decide, by decide⟩

theorem invalid_cidr_error_names_input_witness :
    exampleExternals.decodeClusterDNS (exampleExternals.MustAsset manifests.ClusterDNSDefaultCR)
      = .ok exampleDefaultCR ∧
    ParseCIDR exampleInstallConfigEmpty.Networking.ServiceCIDR
      = .error "invalid CIDR address: " ∧
    ParseCIDR exampleInstallConfigNoPrefix.Networking.ServiceCIDR
      = .error "invalid CIDR address: 172.30.0.0" ∧
    ParseCIDR exampleInstallConfigWidePrefix.Networking.ServiceCIDR
      = .error "invalid CIDR address: 172.30.0.0/33" ∧
    exampleFactory.ClusterDNSDefaultCR exampleExternals (some exampleInstallConfigWidePrefix)
      = .error "invalid serviceCIDR \"172.30.0.0/33\": invalid CIDR address: 172.30.0.0/33" ∧
    ((exampleFactory.ClusterDNSDefaultCR exampleExternals (some exampleInstallConfigEmpty)).obj?
        = none ∧
      ∃ msg, exampleFactory.ClusterDNSDefaultCR exampleExternals (some exampleInstallConfigEmpty)
          = .error msg ∧
        msg = "invalid serviceCIDR " ++
            exampleExternals.Quote exampleInstallConfigEmpty.Networking.ServiceCIDR ++ ": " ++
          ("invalid CIDR address: " ++ exampleInstallConfigEmpty.Networking.ServiceCIDR) ∧
        exampleInstallConfigEmpty.Networking.ServiceCIDR.data <:+: msg.data) ∧
    ((exampleFactory.ClusterDNSDefaultCR exampleExternals
          (some exampleInstallConfigNoPrefix)).obj? = none ∧
      ∃ msg, exampleFactory.ClusterDNSDefaultCR exampleExternals
          (some exampleInstallConfigNoPrefix) = .error msg ∧
        msg = "invalid serviceCIDR " ++
            exampleExternals.Quote exampleInstallConfigNoPrefix.Networking.ServiceCIDR ++ ": " ++
          ("invalid CIDR address: " ++ exampleInstallConfigNoPrefix.Networking.ServiceCIDR) ∧
        exampleInstallConfigNoPrefix.Networking.ServiceCIDR.data <:+: msg.data) :=
  ⟨by decide, by decide, by decide, by decide, by decide,
   invalid_cidr_error_names_input exampleFactory exampleExternals exampleInstallConfigEmpty
     exampleDefaultCR _ (by decide) (show ParseCIDR _ = .error "invalid CIDR address: " by decide),
   invalid_cidr_error_names_input exampleFactory exampleExternals exampleInstallConfigNoPrefix
     exampleDefaultCR _ (by decide)
     (show ParseCIDR _ = .error "invalid CIDR address: 172.30.0.0" by decide)⟩

/-- C15, as stated, fails: with a Service template whose selector holds the pair
`tier = infra` and the sample DaemonSet template, both calls succeed and the
rendered Service's selector holds a pair that the rendered DaemonSet's pod
template labels do not hold. -/
theorem service_selector_not_subset_of_pod_labels :
    ∃ ds s,
      exampleFactory.DNSDaemonSet (exampleExternalsWithService exampleServiceExtraSelector)
        exampleClusterDNS = .ok ds ∧
      exampleFactory.DNSService (exampleExternalsWithService exampleServiceExtraSelector)
        exampleClusterDNS = .ok s ∧
      ¬ (∀ k v, s.Spec.Selector.lookup k = some v →
          ds.Spec.Template.ObjectMeta.Labels.lookup k = some v) := by
  refine ⟨exampleRenderedDaemonSet,
    (exampleFactory.DNSService (exampleExternalsWithService exampleServiceExtraSelector)
      exampleClusterDNS).getD exampleServiceTemplate, by decide, by decide, ?_⟩
  intro h
  have h1 := h "tier" "infra" (by decide)
  revert h1
  decide

theorem service_selector_matches_pods_iff_witness :
    exampleExternals.decodeDaemonSet (exampleExternals.MustAsset manifests.DNSDaemonSet)
      = .ok exampleDaemonSetTemplate ∧
    exampleExternals.decodeService (exampleExternals.MustAsset manifests.DNSService)
      = .ok exampleServiceTemplate ∧
    exampleFactory.DNSDaemonSet exampleExternals exampleClusterDNS = .ok exampleRenderedDaemonSet ∧
    exampleFactory.DNSService exampleExternals exampleClusterDNS = .ok exampleRenderedService ∧
    (exampleRenderedService.Spec.Selector.lookup "dns"
        = some ("dns-" ++ exampleClusterDNS.ObjectMeta.Name) ∧
      exampleRenderedDaemonSet.Spec.Template.ObjectMeta.Labels.lookup "dns"
        = some ("dns-" ++ exampleClusterDNS.ObjectMeta.Name)) ∧
    (∀ k v, exampleRenderedService.Spec.Selector.lookup k = some v →
      exampleRenderedDaemonSet.Spec.Template.ObjectMeta.Labels.lookup k = some v) :=
  ⟨by decide, by decide, by decide, by decide,
   (service_selector_matches_pods_iff exampleFactory exampleExternals exampleClusterDNS
     exampleDaemonSetTemplate exampleRenderedDaemonSet exampleServiceTemplate
     exampleRenderedService (by decide) (by decide) (by decide) (by decide)).1,
   (service_selector_matches_pods_iff exampleFactory exampleExternals exampleClusterDNS
     exampleDaemonSetTemplate exampleRenderedDaemonSet exampleServiceTemplate
     exampleRenderedService (by decide) (by decide) (by decide) (by decide)).2.2
     (by
       intro k v hk hv
       simp [exampleServiceTemplate, GoMap.lookup, lookup_cons_ite, hk] at hv)⟩

theorem volumes_frame_witness :
    (exampleExternalsWithDaemonSet exampleDaemonSetTwoConfigVolumes).decodeDaemonSet
      ((exampleExternalsWithDaemonSet exampleDaemonSetTwoConfigVolumes).MustAsset
        manifests.DNSDaemonSet) = .ok exampleDaemonSetTwoConfigVolumes ∧
    ((exampleFactory.DNSDaemonSet (exampleExternalsWithDaemonSet exampleDaemonSetTwoConfigVolumes)
        exampleClusterDNS).getD exampleDaemonSetTemplate).Spec.Template.Spec.Volumes =
      [ { Name := "hosts", ConfigMap := none, HostPath := some "/etc/hosts", Secret := none },
        { Name := "config-volume"
          ConfigMap := some { Name := "dns-default", Items := [("Corefile", "Corefile")] }
          HostPath := none, Secret := none },
        { Name := "config-volume"
          ConfigMap := some { Name := "other", Items := [] }
          HostPath := none, Secret := none } ] ∧
    (((exampleFactory.DNSDaemonSet (exampleExternalsWithDaemonSet exampleDaemonSetTwoConfigVolumes)
        exampleClusterDNS).getD exampleDaemonSetTemplate).Spec.Template.Spec.Volumes.length
      = exampleDaemonSetTwoConfigVolumes.Spec.Template.Spec.Volumes.length ∧
    ∃ pre v src post,
      exampleDaemonSetTwoConfigVolumes.Spec.Template.Spec.Volumes = pre ++ v :: post ∧
      (∀ w ∈ pre, w.Name ≠ "config-volume") ∧ v.Name = "config-volume" ∧
      v.ConfigMap = some src ∧
      ((exampleFactory.DNSDaemonSet (exampleExternalsWithDaemonSet exampleDaemonSetTwoConfigVolumes)
        exampleClusterDNS).getD exampleDaemonSetTemplate).Spec.Template.Spec.Volumes =
        pre ++ { v with ConfigMap := some { src with
          Name := "dns-" ++ exampleClusterDNS.ObjectMeta.Name } } :: post) :=
  ⟨by decide, by decide,
   volumes_frame exampleFactory (exampleExternalsWithDaemonSet exampleDaemonSetTwoConfigVolumes)
     exampleClusterDNS exampleDaemonSetTwoConfigVolumes _ (by decide) (by decide)⟩

theorem configmap_data_frame_witness :
    exampleExternals.decodeConfigMap (exampleExternals.MustAsset manifests.DNSConfigMap)
      = .ok exampleConfigMapTemplate ∧
    exampleDefaultCR.Spec.ClusterDomain = some "cluster.local" ∧
    (exampleFactory.DNSConfigMap exampleExternals exampleDefaultCR).obj?.map (·.Data)
      = some exampleConfigMapTemplate.Data ∧
    ((exampleDefaultCR.Spec.ClusterDomain = none →
        ∃ cm, exampleFactory.DNSConfigMap exampleExternals exampleDefaultCR = .ok cm ∧
          cm.Data = exampleConfigMapTemplate.Data) ∧
      (exampleConfigMapTemplate.Data ≠ none →
        ∃ cm, exampleFactory.DNSConfigMap exampleExternals exampleDefaultCR = .ok cm) ∧
      (∀ cm, exampleFactory.DNSConfigMap exampleExternals exampleDefaultCR = .ok cm →
        (∀ k, k ≠ "Corefile" → cm.Data.lookup k = exampleConfigMapTemplate.Data.lookup k) ∧
        (exampleDefaultCR.Spec.ClusterDomain = some "cluster.local" →
          cm.Data.get "Corefile" = exampleConfigMapTemplate.Data.get "Corefile" ∧
          (∀ text, exampleConfigMapTemplate.Data.lookup "Corefile" = some text →
            cm.Data.lookup "Corefile" = some text ∧ cm.Data = exampleConfigMapTemplate.Data)))) :=
  ⟨by decide, by decide, by decide,
   configmap_data_frame exampleFactory exampleExternals exampleDefaultCR exampleConfigMapTemplate
     (by decide)⟩

theorem corefile_placeholder_gone_for_foo_bar_witness :
    (exampleExternalsWithConfigMap exampleConfigMapNested).decodeConfigMap
      ((exampleExternalsWithConfigMap exampleConfigMapNested).MustAsset manifests.DNSConfigMap)
      = .ok exampleConfigMapNested ∧
    exampleConfigMapNested.Data.lookup "Corefile" = some "clustercluster.local.local" ∧
    exampleClusterDNSFooBar.Spec.ClusterDomain = some "foo.bar" ∧
    ((exampleFactory.DNSConfigMap (exampleExternalsWithConfigMap exampleConfigMapNested)
        exampleClusterDNSFooBar).getD exampleConfigMapNested).Data.lookup "Corefile"
      = some "clusterfoo.bar.local" ∧
    ∃ cm rendered,
      exampleFactory.DNSConfigMap (exampleExternalsWithConfigMap exampleConfigMapNested)
        exampleClusterDNSFooBar = .ok cm ∧
      cm.Data.lookup "Corefile" = some rendered ∧
      ¬ "cluster.local".data <:+: rendered.data :=
  ⟨by decide, by decide, by decide, by decide,
   (corefile_placeholder_gone_for_foo_bar exampleFactory
     (exampleExternalsWithConfigMap exampleConfigMapNested) exampleClusterDNSFooBar
     exampleConfigMapNested "clustercluster.local.local" (by decide) (by decide) (by decide)).1⟩

/-- C1, at the ServiceCIDR `::ffff:10.0.0.0/120`, which parses as a 16-byte range
with eight host bits whose network number `To4` accepts: the default template
decodes and `ClusterDNSDefaultCR` succeeds, but `Spec.ClusterIP` is
`0:a::ffff:a00:0`, the network number with 10 placed 96 bits too high, and
not the text `10.0.0.10` of network + 10; that address is not contained in the
range. -/
theorem default_cr_mapped_range_leaves_range :
    exampleExternals.decodeClusterDNS (exampleExternals.MustAsset manifests.ClusterDNSDefaultCR)
      = .ok exampleDefaultCR ∧
    ParseCIDR exampleInstallConfigMapped.Networking.ServiceCIDR
      = .ok ({ len := 16, val := 281470849515520 },
             { IP := { len := 16, val := 281470849515520 }, ones := 120 }) ∧
    IPNet.hostLen { IP := { len := 16, val := 281470849515520 }, ones := 120 } = 8 ∧
    net.IP.String { len := 16, val := 281470849515520 + 10 } = "10.0.0.10" ∧
    exampleFactory.ClusterDNSDefaultCR exampleExternals (some exampleInstallConfigMapped) =
      .ok { exampleDefaultCR with
        Spec := { exampleDefaultCR.Spec with ClusterIP := some "0:a::ffff:a00:0" } } ∧
    cidr.Host { IP := { len := 16, val := 281470849515520 }, ones := 120 } 10
      = .ok { len := 16, val := 10 * 2 ^ 96 + 281470849515520 } ∧
    IPNet.Contains { IP := { len := 16, val := 281470849515520 }, ones := 120 }
      { len := 16, val := 10 * 2 ^ 96 + 281470849515520 } = false := by
  refine ⟨by decide, by decide, by decide, by decide, by decide, by decide, by decide⟩

end manifests
